import Mathlib

/-!
Shallow embedding of xBOUT's `xbout/region.py`: topology classification,
region construction (index bounds and neighbour connections), region slicing,
and the guard-cell stitching operations, together with theorems about them.

Data arrays are modelled as lists of rows of integer values drawn from an
abstract global value function `g : Int → Int → Int` (the global 2D array,
indexed `g x y`).  Python slice semantics (negative indices, clamping) are
modelled by `pySlice`.  Failure (`raise`) is modelled with `Except String`.
-/

/-- The grid metadata fields read by `_get_topology` and
`_create_regions_toroidal` (`ds.metadata[...]` in the source). -/
structure Metadata where
  jyseps1_1 : Int
  jyseps2_1 : Int
  ny_inner : Int
  jyseps1_2 : Int
  jyseps2_2 : Int
  ny : Int
  ixseps1 : Int
  ixseps2 : Int
  nx : Int
  MXG : Int
  MYG : Int
  keep_xboundaries : Bool
  keep_yboundaries : Bool
deriving Repr, DecidableEq

/-- The seven topology tags returned by `_get_topology`. -/
inductive Topology where
  | core
  | sol
  | limiter
  | singleNull
  | xpoint
  | connectedDoubleNull
  | disconnectedDoubleNull
deriving Repr, DecidableEq

/-- `_in_range(val, lower, upper)` from region.py. -/
def _in_range (val lower upper : Int) : Int :=
  if val < lower then lower
  else if val > upper then upper
  else val

/-- `_order_vars(lower, upper)` from region.py. -/
def _order_vars (lower upper : Int) : Int × Int :=
  if upper < lower then (upper, lower) else (lower, upper)

/-- `_get_topology(ds)` from region.py; `raise ValueError` is modelled as
`Except.error`. -/
def _get_topology (m : Metadata) : Except String Topology :=
  if m.jyseps2_1 = m.jyseps1_2 then
    -- No upper X-point
    if m.jyseps1_1 ≤ 0 ∧ m.jyseps2_2 ≥ m.ny - 1 then
      let ix := min m.ixseps1 m.ixseps2
      if ix ≥ m.nx - 1 then .ok .core
      else if ix ≤ 0 then .ok .sol
      else .ok .limiter
    else .ok .singleNull
  else if m.jyseps1_1 = m.jyseps2_1 ∧ m.jyseps1_2 = m.jyseps2_2 then
    if m.jyseps1_1 < m.ny_inner - 1 ∧ m.jyseps2_2 > m.ny_inner then .ok .xpoint
    else .error "Currently unsupported topology"
  else if m.ixseps1 = m.ixseps2 then
    if m.jyseps2_1 < m.ny_inner - 1 ∧ m.jyseps1_2 > m.ny_inner then
      .ok .connectedDoubleNull
    else .error "Currently unsupported topology"
  else .ok .disconnectedDoubleNull

/-- The separatrix/branch-cut values after the "Make sure all sizes are
sensible" clamping step of `_create_regions_toroidal` (region.py lines
293-302), before the boundary-cell adjustment. -/
structure Clamped where
  ixs1 : Int
  ixs2 : Int
  jys11 : Int
  jys21 : Int
  nyinner : Int
  jys12 : Int
  jys22 : Int
deriving Repr, DecidableEq

/-- Clamping step of `_create_regions_toroidal` (lines 293-302). -/
def _clamp_metadata (m : Metadata) : Clamped :=
  let ixs1 := _in_range m.ixseps1 0 m.nx
  let ixs2 := _in_range m.ixseps2 0 m.nx
  let p := _order_vars ixs1 ixs2
  let jys11 := _in_range m.jyseps1_1 0 (m.ny - 1)
  let jys21 := _in_range m.jyseps2_1 0 (m.ny - 1)
  let jys12 := _in_range m.jyseps1_2 0 (m.ny - 1)
  let q := _order_vars jys21 jys12
  let nyinner := _in_range m.ny_inner (q.1 + 1) (q.2 + 1)
  let jys22 := _in_range m.jyseps2_2 0 (m.ny - 1)
  { ixs1 := p.1, ixs2 := p.2, jys11 := jys11, jys21 := q.1,
    nyinner := nyinner, jys12 := q.2, jys22 := jys22 }

/-- The index values actually used to construct regions, after both the
clamping step and the "Adjust for boundary cells" step of
`_create_regions_toroidal` (lines 283-315). -/
structure Adjusted where
  ixs1 : Int
  ixs2 : Int
  nx : Int
  jys11 : Int
  jys21 : Int
  nyinner : Int
  jys12 : Int
  jys22 : Int
  ny : Int
  ybndry : Int
  ybndry_upper : Int
deriving Repr, DecidableEq

/-- Boundary-cell adjustment of `_create_regions_toroidal` (lines 283-315):
`ybndry = keep_yboundaries*myg`, `ybndry_upper` is zero when there are no
upper targets, x-quantities are shifted when `keep_xboundaries` is unset,
and the y-breakpoints are shifted up by multiples of the boundary widths. -/
def _adjust_metadata (m : Metadata) : Adjusted :=
  let mxg := m.MXG
  let myg := m.MYG
  let ybndry := (if m.keep_yboundaries then (1 : Int) else 0) * myg
  let ybndry_upper := if m.jyseps2_1 = m.jyseps1_2 then 0 else ybndry
  let c := _clamp_metadata m
  let ixs1 := if m.keep_xboundaries then c.ixs1 else c.ixs1 - mxg
  let ixs2 := if m.keep_xboundaries then c.ixs2 else c.ixs2 - mxg
  let nx := if m.keep_xboundaries then m.nx else m.nx - 2 * mxg
  { ixs1 := ixs1, ixs2 := ixs2, nx := nx,
    jys11 := c.jys11 + ybndry,
    jys21 := c.jys21 + ybndry,
    nyinner := c.nyinner + ybndry + ybndry_upper,
    jys12 := c.jys12 + ybndry + 2 * ybndry_upper,
    jys22 := c.jys22 + ybndry + 2 * ybndry_upper,
    ny := m.ny + 2 * ybndry + 2 * ybndry_upper,
    ybndry := ybndry, ybndry_upper := ybndry_upper }

/-- A `Region`: global index bounds (half-open) and the names of any
neighbouring regions, as stored by `Region.__init__`.  The optional physical
coordinate extents (computed only when a dataset is supplied) play no role in
the indexing claims and are modelled separately for the equality claim. -/
structure Region where
  name : String
  xinner_ind : Int
  xouter_ind : Int
  ylower_ind : Int
  yupper_ind : Int
  connection_inner_x : Option String := none
  connection_outer_x : Option String := none
  connection_lower_y : Option String := none
  connection_upper_y : Option String := none
deriving Repr, DecidableEq

/-- A pair of slices (x and y), each half-open `[start, stop)`, as returned by
the `get_*slices` methods. -/
structure Slices where
  xstart : Int
  xstop : Int
  ystart : Int
  ystop : Int
deriving Repr, DecidableEq

/-- `Region.get_slices(mxg, myg)` from region.py lines 83-108, translated
statement by statement.  Note line 98 of the source: when
`connection_outer_x` is present the code does `xi += mxg` (it increments the
inner bound, not the outer bound `xo`). -/
def Region.get_slices (r : Region) (mxg myg : Int) : Slices :=
  let xi := r.xinner_ind
  let xi := if r.connection_inner_x ≠ none then xi - mxg else xi
  let xo := r.xouter_ind
  let xi := if r.connection_outer_x ≠ none then xi + mxg else xi
  let yl := r.ylower_ind
  let yl := if r.connection_lower_y ≠ none then yl - myg else yl
  let yu := r.yupper_ind
  let yu := if r.connection_upper_y ≠ none then yu + myg else yu
  { xstart := xi, xstop := xo, ystart := yl, ystop := yu }

/-- `Region.get_lower_guards_slices(myg, mxg)` from region.py lines 152-171. -/
def Region.get_lower_guards_slices (r : Region) (mxg myg : Int) : Slices :=
  let xinner := r.xinner_ind
  let xinner := if r.connection_inner_x ≠ none then xinner - mxg else xinner
  let xouter := r.xouter_ind
  let xouter := if r.connection_outer_x ≠ none then xouter + mxg else xouter
  { xstart := xinner, xstop := xouter,
    ystart := r.ylower_ind - myg, ystop := r.ylower_ind }

/-- `Region.get_upper_guards_slices(myg, mxg)` from region.py lines 173-192. -/
def Region.get_upper_guards_slices (r : Region) (mxg myg : Int) : Slices :=
  let xinner := r.xinner_ind
  let xinner := if r.connection_inner_x ≠ none then xinner - mxg else xinner
  let xouter := r.xouter_ind
  let xouter := if r.connection_outer_x ≠ none then xouter + mxg else xouter
  { xstart := xinner, xstop := xouter,
    ystart := r.yupper_ind, ystop := r.yupper_ind + myg }

/-- The ordered region registry (`regions = OrderedDict()`), as an
association list keyed by the dictionary keys used in the source. -/
abbrev Registry := List (String × Region)

/-- Dictionary lookup `regions[name]`. -/
def Registry.lookup : Registry → String → Option Region
  | [], _ => none
  | (k, r) :: rest, n => if k = n then some r else Registry.lookup rest n

/-- In-place update `regions[k] = f(regions[k])` on the association list. -/
def Registry.update (regs : Registry) (k : String) (f : Region → Region) :
    Registry :=
  regs.map fun p => if p.1 = k then (p.1, f p.2) else p

/-- `_create_connection_x(regions, inner, outer)` from region.py. -/
def _create_connection_x (regs : Registry) (inner outer : String) : Registry :=
  let regs := regs.update inner fun r => { r with connection_outer_x := some outer }
  regs.update outer fun r => { r with connection_inner_x := some inner }

/-- `_create_connection_y(regions, lower, upper)` from region.py. -/
def _create_connection_y (regs : Registry) (lower upper : String) : Registry :=
  let regs := regs.update lower fun r => { r with connection_upper_y := some upper }
  regs.update upper fun r => { r with connection_lower_y := some lower }

/-- Region constructor used by `_create_regions_toroidal` (name and index
bounds; connections are wired afterwards). -/
def mkRegion (name : String) (xi xo yl yu : Int) : Region :=
  { name := name, xinner_ind := xi, xouter_ind := xo,
    ylower_ind := yl, yupper_ind := yu }

/-- Regions and connections for topology `'disconnected-double-null'`
(region.py lines 319-397). -/
def buildDDN (a : Adjusted) : Registry :=
  let regs : Registry := [
    ("lower_inner_PFR", mkRegion "lower_inner_PFR" 0 a.ixs1 0 (a.jys11 + 1)),
    ("lower_inner_intersep", mkRegion "lower_inner_intersep" a.ixs1 a.ixs2 0 (a.jys11 + 1)),
    ("lower_inner_SOL", mkRegion "lower_inner_SOL" a.ixs2 a.nx 0 (a.jys11 + 1)),
    ("inner_core", mkRegion "inner_core" 0 a.ixs1 (a.jys11 + 1) (a.jys21 + 1)),
    ("inner_intersep", mkRegion "inner_intersep" a.ixs1 a.ixs2 (a.jys11 + 1) (a.jys21 + 1)),
    ("inner_SOL", mkRegion "inner_SOL" a.ixs2 a.nx (a.jys11 + 1) (a.jys21 + 1)),
    ("upper_inner_PFR", mkRegion "upper_inner_PFR" 0 a.ixs1 (a.jys21 + 1) a.nyinner),
    ("upper_inner_intersep", mkRegion "upper_inner_intersep" a.ixs1 a.ixs2 (a.jys21 + 1) a.nyinner),
    ("upper_inner_SOL", mkRegion "upper_inner_SOL" a.ixs2 a.nx (a.jys21 + 1) a.nyinner),
    ("upper_outer_PFR", mkRegion "upper_outer_PFR" 0 a.ixs1 a.nyinner (a.jys12 + 1)),
    ("upper_outer_intersep", mkRegion "upper_outer_intersep" a.ixs1 a.ixs2 a.nyinner (a.jys12 + 1)),
    ("upper_outer_SOL", mkRegion "upper_outer_SOL" a.ixs2 a.nx a.nyinner (a.jys12 + 1)),
    ("outer_core", mkRegion "outer_core" 0 a.ixs1 (a.jys12 + 1) (a.jys22 + 1)),
    ("outer_intersep", mkRegion "outer_intersep" a.ixs1 a.ixs2 (a.jys12 + 1) (a.jys22 + 1)),
    ("outer_SOL", mkRegion "outer_SOL" a.ixs2 a.nx (a.jys12 + 1) (a.jys22 + 1)),
    ("lower_outer_PFR", mkRegion "lower_outer_PFR" 0 a.ixs1 (a.jys22 + 1) a.ny),
    ("lower_outer_intersep", mkRegion "lower_outer_intersep" a.ixs1 a.ixs2 (a.jys22 + 1) a.ny),
    ("lower_outer_SOL", mkRegion "lower_outer_SOL" a.ixs2 a.nx (a.jys22 + 1) a.ny)]
  let regs := _create_connection_x regs "lower_inner_PFR" "lower_inner_intersep"
  let regs := _create_connection_x regs "lower_inner_intersep" "lower_inner_SOL"
  let regs := _create_connection_x regs "inner_core" "inner_intersep"
  let regs := _create_connection_x regs "inner_intersep" "inner_SOL"
  let regs := _create_connection_x regs "upper_inner_PFR" "upper_inner_intersep"
  let regs := _create_connection_x regs "upper_inner_intersep" "upper_inner_SOL"
  let regs := _create_connection_x regs "upper_outer_PFR" "upper_outer_intersep"
  let regs := _create_connection_x regs "upper_outer_intersep" "upper_outer_SOL"
  let regs := _create_connection_x regs "outer_core" "outer_intersep"
  let regs := _create_connection_x regs "outer_intersep" "outer_SOL"
  let regs := _create_connection_x regs "lower_outer_PFR" "lower_outer_intersep"
  let regs := _create_connection_x regs "lower_outer_intersep" "lower_outer_SOL"
  let regs := _create_connection_y regs "lower_inner_PFR" "lower_outer_PFR"
  let regs := _create_connection_y regs "lower_inner_intersep" "inner_intersep"
  let regs := _create_connection_y regs "lower_inner_SOL" "inner_SOL"
  let regs := _create_connection_y regs "inner_core" "outer_core"
  let regs := _create_connection_y regs "outer_core" "inner_core"
  let regs := _create_connection_y regs "inner_intersep" "outer_intersep"
  let regs := _create_connection_y regs "inner_SOL" "upper_inner_SOL"
  let regs := _create_connection_y regs "upper_outer_intersep" "upper_inner_intersep"
  let regs := _create_connection_y regs "upper_outer_PFR" "upper_inner_PFR"
  let regs := _create_connection_y regs "upper_outer_SOL" "outer_SOL"
  let regs := _create_connection_y regs "outer_intersep" "lower_outer_intersep"
  let regs := _create_connection_y regs "outer_SOL" "lower_outer_SOL"
  regs

/-- Regions and connections for topology `'connected-double-null'`
(region.py lines 398-448). -/
def buildCDN (a : Adjusted) : Registry :=
  let regs : Registry := [
    ("lower_inner_PFR", mkRegion "lower_inner_PFR" 0 a.ixs1 0 (a.jys11 + 1)),
    ("lower_inner_SOL", mkRegion "lower_inner_SOL" a.ixs2 a.nx 0 (a.jys11 + 1)),
    ("inner_core", mkRegion "inner_core" 0 a.ixs1 (a.jys11 + 1) (a.jys21 + 1)),
    ("inner_SOL", mkRegion "inner_SOL" a.ixs2 a.nx (a.jys11 + 1) (a.jys21 + 1)),
    ("upper_inner_PFR", mkRegion "upper_inner_PFR" 0 a.ixs1 (a.jys21 + 1) a.nyinner),
    ("upper_inner_SOL", mkRegion "upper_inner_SOL" a.ixs2 a.nx (a.jys21 + 1) a.nyinner),
    ("upper_outer_PFR", mkRegion "upper_outer_PFR" 0 a.ixs1 a.nyinner (a.jys12 + 1)),
    ("upper_outer_SOL", mkRegion "upper_outer_SOL" a.ixs2 a.nx a.nyinner (a.jys12 + 1)),
    ("outer_core", mkRegion "outer_core" 0 a.ixs1 (a.jys12 + 1) (a.jys22 + 1)),
    ("outer_SOL", mkRegion "outer_SOL" a.ixs2 a.nx (a.jys12 + 1) (a.jys22 + 1)),
    ("lower_outer_PFR", mkRegion "lower_outer_PFR" 0 a.ixs1 (a.jys22 + 1) a.ny),
    ("lower_outer_SOL", mkRegion "lower_outer_SOL" a.ixs2 a.nx (a.jys22 + 1) a.ny)]
  let regs := _create_connection_x regs "lower_inner_PFR" "lower_inner_SOL"
  let regs := _create_connection_x regs "inner_core" "inner_SOL"
  let regs := _create_connection_x regs "upper_inner_PFR" "upper_inner_SOL"
  let regs := _create_connection_x regs "upper_outer_PFR" "upper_outer_SOL"
  let regs := _create_connection_x regs "outer_core" "outer_SOL"
  let regs := _create_connection_x regs "lower_outer_PFR" "lower_outer_SOL"
  let regs := _create_connection_y regs "lower_inner_PFR" "lower_outer_PFR"
  let regs := _create_connection_y regs "lower_inner_SOL" "inner_SOL"
  let regs := _create_connection_y regs "inner_core" "outer_core"
  let regs := _create_connection_y regs "outer_core" "inner_core"
  let regs := _create_connection_y regs "inner_SOL" "upper_inner_SOL"
  let regs := _create_connection_y regs "upper_outer_PFR" "upper_inner_PFR"
  let regs := _create_connection_y regs "upper_outer_SOL" "outer_SOL"
  let regs := _create_connection_y regs "outer_SOL" "lower_outer_SOL"
  regs

/-- Regions and connections for topology `'single-null'` (region.py lines
449-474).  Note the source stores `Region(name='lower_PFR', ...)` under the
dictionary key `'outer_PFR'` (and `'lower_SOL'` under `'outer_SOL'`). -/
def buildSingleNull (a : Adjusted) : Registry :=
  let regs : Registry := [
    ("inner_PFR", mkRegion "inner_PFR" 0 a.ixs1 0 (a.jys11 + 1)),
    ("inner_SOL", mkRegion "inner_SOL" a.ixs1 a.nx 0 (a.jys11 + 1)),
    ("core", mkRegion "core" 0 a.ixs1 (a.jys11 + 1) (a.jys22 + 1)),
    ("SOL", mkRegion "SOL" a.ixs1 a.nx (a.jys11 + 1) (a.jys22 + 1)),
    ("outer_PFR", mkRegion "lower_PFR" 0 a.ixs1 (a.jys22 + 1) a.ny),
    ("outer_SOL", mkRegion "lower_SOL" a.ixs1 a.nx (a.jys22 + 1) a.ny)]
  let regs := _create_connection_x regs "inner_PFR" "inner_SOL"
  let regs := _create_connection_x regs "core" "SOL"
  let regs := _create_connection_x regs "outer_PFR" "outer_SOL"
  let regs := _create_connection_y regs "inner_PFR" "outer_PFR"
  let regs := _create_connection_y regs "inner_SOL" "SOL"
  let regs := _create_connection_y regs "core" "core"
  let regs := _create_connection_y regs "SOL" "outer_SOL"
  regs

/-- Regions and connections for topology `'limiter'` (region.py lines
475-483). -/
def buildLimiter (a : Adjusted) : Registry :=
  let regs : Registry := [
    ("core", mkRegion "core" 0 a.ixs1 a.ybndry (a.ny - a.ybndry)),
    ("SOL", mkRegion "SOL" a.ixs1 a.nx 0 a.ny)]
  let regs := _create_connection_x regs "core" "SOL"
  let regs := _create_connection_y regs "core" "core"
  regs

/-- Region and connections for topology `'core'` (region.py lines 484-488). -/
def buildCore (a : Adjusted) : Registry :=
  let regs : Registry := [
    ("core", mkRegion "core" 0 a.nx a.ybndry (a.ny - a.ybndry))]
  let regs := _create_connection_y regs "core" "core"
  regs

/-- Region for topology `'sol'` (region.py lines 489-492). -/
def buildSol (a : Adjusted) : Registry :=
  [("SOL", mkRegion "SOL" 0 a.nx 0 a.ny)]

/-- Regions and connections for topology `'xpoint'` (region.py lines
493-525). -/
def buildXpoint (a : Adjusted) : Registry :=
  let regs : Registry := [
    ("lower_inner_PFR", mkRegion "lower_inner_PFR" 0 a.ixs1 0 (a.jys11 + 1)),
    ("lower_inner_SOL", mkRegion "lower_inner_SOL" a.ixs1 a.nx 0 (a.jys11 + 1)),
    ("upper_inner_PFR", mkRegion "upper_inner_PFR" 0 a.ixs1 (a.jys11 + 1) a.nyinner),
    ("upper_inner_SOL", mkRegion "upper_inner_SOL" a.ixs1 a.nx (a.jys11 + 1) a.nyinner),
    ("upper_outer_PFR", mkRegion "upper_outer_PFR" 0 a.ixs1 a.nyinner (a.jys22 + 1)),
    ("upper_outer_SOL", mkRegion "upper_outer_SOL" a.ixs1 a.nx a.nyinner (a.jys22 + 1)),
    ("lower_outer_PFR", mkRegion "lower_outer_PFR" 0 a.ixs1 (a.jys22 + 1) a.ny),
    ("lower_outer_SOL", mkRegion "lower_outer_SOL" a.ixs1 a.nx (a.jys22 + 1) a.ny)]
  let regs := _create_connection_x regs "lower_inner_PFR" "lower_inner_SOL"
  let regs := _create_connection_x regs "upper_inner_PFR" "upper_inner_SOL"
  let regs := _create_connection_x regs "upper_outer_PFR" "upper_outer_SOL"
  let regs := _create_connection_x regs "lower_outer_PFR" "lower_outer_SOL"
  let regs := _create_connection_y regs "lower_inner_PFR" "lower_outer_PFR"
  let regs := _create_connection_y regs "lower_inner_SOL" "upper_inner_SOL"
  let regs := _create_connection_y regs "upper_outer_PFR" "upper_inner_PFR"
  let regs := _create_connection_y regs "upper_outer_SOL" "lower_outer_SOL"
  regs

/-- `_create_regions_toroidal(ds)` from region.py: classify the topology from
the raw metadata, adjust the metadata, and build the named region registry. -/
def _create_regions_toroidal (m : Metadata) : Except String Registry :=
  match _get_topology m with
  | .error e => .error e
  | .ok t =>
    let a := _adjust_metadata m
    .ok (match t with
      | .disconnectedDoubleNull => buildDDN a
      | .connectedDoubleNull => buildCDN a
      | .singleNull => buildSingleNull a
      | .limiter => buildLimiter a
      | .core => buildCore a
      | .sol => buildSol a
      | .xpoint => buildXpoint a)

/-- The four index bounds of a region as a rectangle
`(xinner, xouter, ylower, yupper)`. -/
abbrev Rect := Int × Int × Int × Int

/-- The index rectangles of all regions in a registry, in registry order. -/
def RegionRects (regs : Registry) : List Rect :=
  regs.map fun p => (p.2.xinner_ind, p.2.xouter_ind, p.2.ylower_ind, p.2.yupper_ind)

/-- Membership of a grid point in a half-open index rectangle. -/
def inRect (q : Rect) (x y : Int) : Prop :=
  q.1 ≤ x ∧ x < q.2.1 ∧ q.2.2.1 ≤ y ∧ y < q.2.2.2

instance (q : Rect) (x y : Int) : Decidable (inRect q x y) := by
  unfold inRect; infer_instance

/-- No grid point lies in two distinct rectangles of the list. -/
def RectsDisjointAt (l : List Rect) (x y : Int) : Prop :=
  List.Pairwise (fun q1 q2 => ¬(inRect q1 x y ∧ inRect q2 x y)) l

/-- Key-based connection symmetry: each connection name, looked up in the
registry, points back (in the opposite direction) to the key under which the
referring region is stored. -/
def ConnSymmetric (regs : Registry) : Prop :=
  ∀ k r, regs.lookup k = some r →
    (∀ s, r.connection_outer_x = some s →
      ∃ r2, regs.lookup s = some r2 ∧ r2.connection_inner_x = some k) ∧
    (∀ s, r.connection_inner_x = some s →
      ∃ r2, regs.lookup s = some r2 ∧ r2.connection_outer_x = some k) ∧
    (∀ s, r.connection_upper_y = some s →
      ∃ r2, regs.lookup s = some r2 ∧ r2.connection_lower_y = some k) ∧
    (∀ s, r.connection_lower_y = some s →
      ∃ r2, regs.lookup s = some r2 ∧ r2.connection_upper_y = some k)

/-- Name-based connection symmetry as stated in the claim: the partner's
back-connection equals the referring region's stored `name` attribute. -/
def NameSymmetric (regs : Registry) : Prop :=
  ∀ k r, regs.lookup k = some r →
    (∀ s, r.connection_outer_x = some s →
      ∃ r2, regs.lookup s = some r2 ∧ r2.connection_inner_x = some r.name) ∧
    (∀ s, r.connection_inner_x = some s →
      ∃ r2, regs.lookup s = some r2 ∧ r2.connection_outer_x = some r.name) ∧
    (∀ s, r.connection_upper_y = some s →
      ∃ r2, regs.lookup s = some r2 ∧ r2.connection_lower_y = some r.name) ∧
    (∀ s, r.connection_lower_y = some s →
      ∃ r2, regs.lookup s = some r2 ∧ r2.connection_upper_y = some r.name)

/-- Boolean check of one connection: absent, or the partner exists and its
back-connection (extracted by `back`) equals `expected`. -/
def checkConn (regs : Registry) (conn : Option String)
    (back : Region → Option String) (expected : String) : Bool :=
  match conn with
  | none => true
  | some s =>
    match regs.lookup s with
    | none => false
    | some r2 => back r2 = some expected

/-- Boolean checker for `ConnSymmetric`. -/
def connSymB (regs : Registry) : Bool :=
  regs.all fun p =>
    checkConn regs p.2.connection_outer_x Region.connection_inner_x p.1 &&
    checkConn regs p.2.connection_inner_x Region.connection_outer_x p.1 &&
    checkConn regs p.2.connection_upper_y Region.connection_lower_y p.1 &&
    checkConn regs p.2.connection_lower_y Region.connection_upper_y p.1

lemma lookup_mem {regs : Registry} {k : String} {r : Region}
    (h : regs.lookup k = some r) : (k, r) ∈ regs := by
  induction regs with
  | nil => simp [Registry.lookup] at h
  | cons p rest ih =>
    obtain ⟨k1, r1⟩ := p
    rw [Registry.lookup] at h
    split at h
    · next heq =>
      injection h with h2
      subst h2; subst heq
      exact List.mem_cons_self _ _
    · exact List.mem_cons_of_mem _ (ih h)

lemma checkConn_sound {regs : Registry} {conn : Option String}
    {back : Region → Option String} {expected : String}
    (h : checkConn regs conn back expected = true)
    {s : String} (hs : conn = some s) :
    ∃ r2, regs.lookup s = some r2 ∧ back r2 = some expected := by
  subst hs
  cases hc : regs.lookup s with
  | none => simp [checkConn, hc] at h
  | some r2 =>
    simp only [checkConn, hc, decide_eq_true_eq] at h
    exact ⟨r2, rfl, h⟩

lemma connSymB_sound {regs : Registry} (h : connSymB regs = true) :
    ConnSymmetric regs := by
  intro k r hl
  have hall := List.all_eq_true.mp h _ (lookup_mem hl)
  simp only [Bool.and_eq_true] at hall
  obtain ⟨⟨⟨h1, h2⟩, h3⟩, h4⟩ := hall
  exact ⟨fun s hs => checkConn_sound h1 hs, fun s hs => checkConn_sound h2 hs,
         fun s hs => checkConn_sound h3 hs, fun s hs => checkConn_sound h4 hs⟩

/-- Region literal with all fields, used for the explicit (fully wired)
registry normal forms. -/
def mkRegionC (name : String) (xi xo yl yu : Int)
    (ci co cl cu : Option String) : Region :=
  { name := name, xinner_ind := xi, xouter_ind := xo,
    ylower_ind := yl, yupper_ind := yu,
    connection_inner_x := ci, connection_outer_x := co,
    connection_lower_y := cl, connection_upper_y := cu }

/-- The fully wired `'disconnected-double-null'` registry. -/
def buildDDNr (a : Adjusted) : Registry := [
  ("lower_inner_PFR", mkRegionC "lower_inner_PFR" 0 a.ixs1 0 (a.jys11 + 1)
    none (some "lower_inner_intersep") none (some "lower_outer_PFR")),
  ("lower_inner_intersep", mkRegionC "lower_inner_intersep" a.ixs1 a.ixs2 0 (a.jys11 + 1)
    (some "lower_inner_PFR") (some "lower_inner_SOL") none (some "inner_intersep")),
  ("lower_inner_SOL", mkRegionC "lower_inner_SOL" a.ixs2 a.nx 0 (a.jys11 + 1)
    (some "lower_inner_intersep") none none (some "inner_SOL")),
  ("inner_core", mkRegionC "inner_core" 0 a.ixs1 (a.jys11 + 1) (a.jys21 + 1)
    none (some "inner_intersep") (some "outer_core") (some "outer_core")),
  ("inner_intersep", mkRegionC "inner_intersep" a.ixs1 a.ixs2 (a.jys11 + 1) (a.jys21 + 1)
    (some "inner_core") (some "inner_SOL") (some "lower_inner_intersep") (some "outer_intersep")),
  ("inner_SOL", mkRegionC "inner_SOL" a.ixs2 a.nx (a.jys11 + 1) (a.jys21 + 1)
    (some "inner_intersep") none (some "lower_inner_SOL") (some "upper_inner_SOL")),
  ("upper_inner_PFR", mkRegionC "upper_inner_PFR" 0 a.ixs1 (a.jys21 + 1) a.nyinner
    none (some "upper_inner_intersep") (some "upper_outer_PFR") none),
  ("upper_inner_intersep", mkRegionC "upper_inner_intersep" a.ixs1 a.ixs2 (a.jys21 + 1) a.nyinner
    (some "upper_inner_PFR") (some "upper_inner_SOL") (some "upper_outer_intersep") none),
  ("upper_inner_SOL", mkRegionC "upper_inner_SOL" a.ixs2 a.nx (a.jys21 + 1) a.nyinner
    (some "upper_inner_intersep") none (some "inner_SOL") none),
  ("upper_outer_PFR", mkRegionC "upper_outer_PFR" 0 a.ixs1 a.nyinner (a.jys12 + 1)
    none (some "upper_outer_intersep") none (some "upper_inner_PFR")),
  ("upper_outer_intersep", mkRegionC "upper_outer_intersep" a.ixs1 a.ixs2 a.nyinner (a.jys12 + 1)
    (some "upper_outer_PFR") (some "upper_outer_SOL") none (some "upper_inner_intersep")),
  ("upper_outer_SOL", mkRegionC "upper_outer_SOL" a.ixs2 a.nx a.nyinner (a.jys12 + 1)
    (some "upper_outer_intersep") none none (some "outer_SOL")),
  ("outer_core", mkRegionC "outer_core" 0 a.ixs1 (a.jys12 + 1) (a.jys22 + 1)
    none (some "outer_intersep") (some "inner_core") (some "inner_core")),
  ("outer_intersep", mkRegionC "outer_intersep" a.ixs1 a.ixs2 (a.jys12 + 1) (a.jys22 + 1)
    (some "outer_core") (some "outer_SOL") (some "inner_intersep") (some "lower_outer_intersep")),
  ("outer_SOL", mkRegionC "outer_SOL" a.ixs2 a.nx (a.jys12 + 1) (a.jys22 + 1)
    (some "outer_intersep") none (some "upper_outer_SOL") (some "lower_outer_SOL")),
  ("lower_outer_PFR", mkRegionC "lower_outer_PFR" 0 a.ixs1 (a.jys22 + 1) a.ny
    none (some "lower_outer_intersep") (some "lower_inner_PFR") none),
  ("lower_outer_intersep", mkRegionC "lower_outer_intersep" a.ixs1 a.ixs2 (a.jys22 + 1) a.ny
    (some "lower_outer_PFR") (some "lower_outer_SOL") (some "outer_intersep") none),
  ("lower_outer_SOL", mkRegionC "lower_outer_SOL" a.ixs2 a.nx (a.jys22 + 1) a.ny
    (some "lower_outer_intersep") none (some "outer_SOL") none)]

lemma update_nil (k : String) (f : Region → Region) :
    Registry.update [] k f = [] := rfl

lemma update_cons (k1 : String) (r1 : Region) (rest : Registry) (k : String)
    (f : Region → Region) :
    Registry.update ((k1, r1) :: rest) k f =
      (if k1 = k then (k1, f r1) else (k1, r1)) :: Registry.update rest k f := by
  simp [Registry.update]

lemma buildDDN_eq (a : Adjusted) : buildDDN a = buildDDNr a := by
  simp only [buildDDN, buildDDNr, _create_connection_x, _create_connection_y,
    update_cons, update_nil, mkRegion, mkRegionC, String.reduceEq, reduceIte]

/-- The fully wired `'connected-double-null'` registry. -/
def buildCDNr (a : Adjusted) : Registry := [
  ("lower_inner_PFR", mkRegionC "lower_inner_PFR" 0 a.ixs1 0 (a.jys11 + 1)
    none (some "lower_inner_SOL") none (some "lower_outer_PFR")),
  ("lower_inner_SOL", mkRegionC "lower_inner_SOL" a.ixs2 a.nx 0 (a.jys11 + 1)
    (some "lower_inner_PFR") none none (some "inner_SOL")),
  ("inner_core", mkRegionC "inner_core" 0 a.ixs1 (a.jys11 + 1) (a.jys21 + 1)
    none (some "inner_SOL") (some "outer_core") (some "outer_core")),
  ("inner_SOL", mkRegionC "inner_SOL" a.ixs2 a.nx (a.jys11 + 1) (a.jys21 + 1)
    (some "inner_core") none (some "lower_inner_SOL") (some "upper_inner_SOL")),
  ("upper_inner_PFR", mkRegionC "upper_inner_PFR" 0 a.ixs1 (a.jys21 + 1) a.nyinner
    none (some "upper_inner_SOL") (some "upper_outer_PFR") none),
  ("upper_inner_SOL", mkRegionC "upper_inner_SOL" a.ixs2 a.nx (a.jys21 + 1) a.nyinner
    (some "upper_inner_PFR") none (some "inner_SOL") none),
  ("upper_outer_PFR", mkRegionC "upper_outer_PFR" 0 a.ixs1 a.nyinner (a.jys12 + 1)
    none (some "upper_outer_SOL") none (some "upper_inner_PFR")),
  ("upper_outer_SOL", mkRegionC "upper_outer_SOL" a.ixs2 a.nx a.nyinner (a.jys12 + 1)
    (some "upper_outer_PFR") none none (some "outer_SOL")),
  ("outer_core", mkRegionC "outer_core" 0 a.ixs1 (a.jys12 + 1) (a.jys22 + 1)
    none (some "outer_SOL") (some "inner_core") (some "inner_core")),
  ("outer_SOL", mkRegionC "outer_SOL" a.ixs2 a.nx (a.jys12 + 1) (a.jys22 + 1)
    (some "outer_core") none (some "upper_outer_SOL") (some "lower_outer_SOL")),
  ("lower_outer_PFR", mkRegionC "lower_outer_PFR" 0 a.ixs1 (a.jys22 + 1) a.ny
    none (some "lower_outer_SOL") (some "lower_inner_PFR") none),
  ("lower_outer_SOL", mkRegionC "lower_outer_SOL" a.ixs2 a.nx (a.jys22 + 1) a.ny
    (some "lower_outer_PFR") none (some "outer_SOL") none)]

lemma buildCDN_eq (a : Adjusted) : buildCDN a = buildCDNr a := by
  simp only [buildCDN, buildCDNr, _create_connection_x, _create_connection_y,
    update_cons, update_nil, mkRegion, mkRegionC, String.reduceEq, reduceIte]

/-- The fully wired `'single-null'` registry (note the `name`/key mismatch for
the two outer regions, preserved from the source). -/
def buildSingleNullr (a : Adjusted) : Registry := [
  ("inner_PFR", mkRegionC "inner_PFR" 0 a.ixs1 0 (a.jys11 + 1)
    none (some "inner_SOL") none (some "outer_PFR")),
  ("inner_SOL", mkRegionC "inner_SOL" a.ixs1 a.nx 0 (a.jys11 + 1)
    (some "inner_PFR") none none (some "SOL")),
  ("core", mkRegionC "core" 0 a.ixs1 (a.jys11 + 1) (a.jys22 + 1)
    none (some "SOL") (some "core") (some "core")),
  ("SOL", mkRegionC "SOL" a.ixs1 a.nx (a.jys11 + 1) (a.jys22 + 1)
    (some "core") none (some "inner_SOL") (some "outer_SOL")),
  ("outer_PFR", mkRegionC "lower_PFR" 0 a.ixs1 (a.jys22 + 1) a.ny
    none (some "outer_SOL") (some "inner_PFR") none),
  ("outer_SOL", mkRegionC "lower_SOL" a.ixs1 a.nx (a.jys22 + 1) a.ny
    (some "outer_PFR") none (some "SOL") none)]

lemma buildSingleNull_eq (a : Adjusted) : buildSingleNull a = buildSingleNullr a := by
  simp only [buildSingleNull, buildSingleNullr, _create_connection_x,
    _create_connection_y, update_cons, update_nil, mkRegion, mkRegionC,
    String.reduceEq, reduceIte]

/-- The fully wired `'limiter'` registry. -/
def buildLimiterr (a : Adjusted) : Registry := [
  ("core", mkRegionC "core" 0 a.ixs1 a.ybndry (a.ny - a.ybndry)
    none (some "SOL") (some "core") (some "core")),
  ("SOL", mkRegionC "SOL" a.ixs1 a.nx 0 a.ny
    (some "core") none none none)]

lemma buildLimiter_eq (a : Adjusted) : buildLimiter a = buildLimiterr a := by
  simp only [buildLimiter, buildLimiterr, _create_connection_x,
    _create_connection_y, update_cons, update_nil, mkRegion, mkRegionC,
    String.reduceEq, reduceIte]

/-- The fully wired `'core'` registry. -/
def buildCorer (a : Adjusted) : Registry := [
  ("core", mkRegionC "core" 0 a.nx a.ybndry (a.ny - a.ybndry)
    none none (some "core") (some "core"))]

lemma buildCore_eq (a : Adjusted) : buildCore a = buildCorer a := by
  simp only [buildCore, buildCorer, _create_connection_y,
    update_cons, update_nil, mkRegion, mkRegionC, String.reduceEq, reduceIte]

/-- The fully wired `'xpoint'` registry. -/
def buildXpointr (a : Adjusted) : Registry := [
  ("lower_inner_PFR", mkRegionC "lower_inner_PFR" 0 a.ixs1 0 (a.jys11 + 1)
    none (some "lower_inner_SOL") none (some "lower_outer_PFR")),
  ("lower_inner_SOL", mkRegionC "lower_inner_SOL" a.ixs1 a.nx 0 (a.jys11 + 1)
    (some "lower_inner_PFR") none none (some "upper_inner_SOL")),
  ("upper_inner_PFR", mkRegionC "upper_inner_PFR" 0 a.ixs1 (a.jys11 + 1) a.nyinner
    none (some "upper_inner_SOL") (some "upper_outer_PFR") none),
  ("upper_inner_SOL", mkRegionC "upper_inner_SOL" a.ixs1 a.nx (a.jys11 + 1) a.nyinner
    (some "upper_inner_PFR") none (some "lower_inner_SOL") none),
  ("upper_outer_PFR", mkRegionC "upper_outer_PFR" 0 a.ixs1 a.nyinner (a.jys22 + 1)
    none (some "upper_outer_SOL") none (some "upper_inner_PFR")),
  ("upper_outer_SOL", mkRegionC "upper_outer_SOL" a.ixs1 a.nx a.nyinner (a.jys22 + 1)
    (some "upper_outer_PFR") none none (some "lower_outer_SOL")),
  ("lower_outer_PFR", mkRegionC "lower_outer_PFR" 0 a.ixs1 (a.jys22 + 1) a.ny
    none (some "lower_outer_SOL") (some "lower_inner_PFR") none),
  ("lower_outer_SOL", mkRegionC "lower_outer_SOL" a.ixs1 a.nx (a.jys22 + 1) a.ny
    (some "lower_outer_PFR") none (some "upper_outer_SOL") none)]

lemma buildXpoint_eq (a : Adjusted) : buildXpoint a = buildXpointr a := by
  simp only [buildXpoint, buildXpointr, _create_connection_x,
    _create_connection_y, update_cons, update_nil, mkRegion, mkRegionC,
    String.reduceEq, reduceIte]

lemma lookup_nil (k : String) : Registry.lookup [] k = none := rfl

lemma lookup_cons (k1 : String) (r1 : Region) (rest : Registry) (k : String) :
    Registry.lookup ((k1, r1) :: rest) k =
      if k1 = k then some r1 else Registry.lookup rest k := rfl

lemma connSymB_buildDDNr (a : Adjusted) : connSymB (buildDDNr a) = true := by
  simp only [connSymB, buildDDNr, checkConn, mkRegionC, lookup_cons, lookup_nil,
    List.all_cons, List.all_nil, String.reduceEq, reduceIte, Bool.and_true,
    Bool.true_and, Option.some.injEq, decide_eq_true_eq, decide_True]

lemma connSymB_buildCDNr (a : Adjusted) : connSymB (buildCDNr a) = true := by
  simp only [connSymB, buildCDNr, checkConn, mkRegionC, lookup_cons, lookup_nil,
    List.all_cons, List.all_nil, String.reduceEq, reduceIte, Bool.and_true,
    Bool.true_and, Option.some.injEq, decide_eq_true_eq, decide_True]

lemma connSymB_buildSingleNullr (a : Adjusted) :
    connSymB (buildSingleNullr a) = true := by
  simp only [connSymB, buildSingleNullr, checkConn, mkRegionC, lookup_cons,
    lookup_nil, List.all_cons, List.all_nil, String.reduceEq, reduceIte,
    Bool.and_true, Bool.true_and, Option.some.injEq, decide_eq_true_eq, decide_True]

lemma connSymB_buildLimiterr (a : Adjusted) :
    connSymB (buildLimiterr a) = true := by
  simp only [connSymB, buildLimiterr, checkConn, mkRegionC, lookup_cons,
    lookup_nil, List.all_cons, List.all_nil, String.reduceEq, reduceIte,
    Bool.and_true, Bool.true_and, Option.some.injEq, decide_eq_true_eq, decide_True]

lemma connSymB_buildCorer (a : Adjusted) : connSymB (buildCorer a) = true := by
  simp only [connSymB, buildCorer, checkConn, mkRegionC, lookup_cons,
    lookup_nil, List.all_cons, List.all_nil, String.reduceEq, reduceIte,
    Bool.and_true, Bool.true_and, Option.some.injEq, decide_eq_true_eq, decide_True]

lemma connSymB_buildSol (a : Adjusted) : connSymB (buildSol a) = true := rfl

lemma connSymB_buildXpointr (a : Adjusted) :
    connSymB (buildXpointr a) = true := by
  simp only [connSymB, buildXpointr, checkConn, mkRegionC, lookup_cons,
    lookup_nil, List.all_cons, List.all_nil, String.reduceEq, reduceIte,
    Bool.and_true, Bool.true_and, Option.some.injEq, decide_eq_true_eq, decide_True]

/-- Concrete single-null metadata used to exhibit the `name`-vs-key mismatch
of the single-null registry. -/
def mSN : Metadata :=
  { jyseps1_1 := 2, jyseps2_1 := 3, ny_inner := 4, jyseps1_2 := 3,
    jyseps2_2 := 5, ny := 8, ixseps1 := 3, ixseps2 := 3, nx := 6,
    MXG := 2, MYG := 2, keep_xboundaries := true, keep_yboundaries := false }

/-- C4 counterexample: in the single-null registry the region stored under
key `"outer_PFR"` has `name = "lower_PFR"`, so the partner's back-connection
(`"outer_PFR"`, a registry key) differs from the referring region's `name`
and name-based connection symmetry fails. -/
theorem C4_counterexample :
    ∃ regs, _create_regions_toroidal mSN = .ok regs ∧ ¬ NameSymmetric regs := by
  refine ⟨buildSingleNullr (_adjust_metadata mSN), ?_, ?_⟩
  · show _create_regions_toroidal mSN = _
    rw [show _create_regions_toroidal mSN =
      .ok (buildSingleNull (_adjust_metadata mSN)) from rfl, buildSingleNull_eq]
  · intro h
    have hl : (buildSingleNullr (_adjust_metadata mSN)).lookup "outer_PFR" =
        some (mkRegionC "lower_PFR" 0 3 6 8
          none (some "outer_SOL") (some "inner_PFR") none) := by
      simp only [buildSingleNullr, lookup_cons, lookup_nil, String.reduceEq,
        reduceIte]
      rfl
    obtain ⟨h1, -, -, -⟩ := h _ _ hl
    obtain ⟨r2, hr2, hback⟩ := h1 "outer_SOL" rfl
    have hl2 : (buildSingleNullr (_adjust_metadata mSN)).lookup "outer_SOL" =
        some (mkRegionC "lower_SOL" 3 6 6 8
          (some "outer_PFR") none (some "SOL") none) := by
      simp only [buildSingleNullr, lookup_cons, lookup_nil, String.reduceEq,
        reduceIte]
      rfl
    rw [hl2] at hr2
    injection hr2 with hr2
    subst hr2
    simp [mkRegionC] at hback

/-- C4 (amended): in every registry built by `_create_regions_toroidal`,
connections are symmetric with respect to the registry keys: if the region
stored under key `k` has `connection_outer_x = some s`, then the region
stored under key `s` has `connection_inner_x = some k`, and analogously for
the other three directions. -/
theorem C4_connection_symmetry (m : Metadata) (regs : Registry)
    (h : _create_regions_toroidal m = .ok regs) : ConnSymmetric regs := by
  unfold _create_regions_toroidal at h
  cases ht : _get_topology m with
  | error e => rw [ht] at h; cases h
  | ok t =>
    rw [ht] at h
    injection h with h
    subst h
    apply connSymB_sound
    cases t
    case disconnectedDoubleNull => rw [buildDDN_eq]; exact connSymB_buildDDNr _
    case connectedDoubleNull => rw [buildCDN_eq]; exact connSymB_buildCDNr _
    case singleNull => rw [buildSingleNull_eq]; exact connSymB_buildSingleNullr _
    case limiter => rw [buildLimiter_eq]; exact connSymB_buildLimiterr _
    case core => rw [buildCore_eq]; exact connSymB_buildCorer _
    case sol => exact connSymB_buildSol _
    case xpoint => rw [buildXpoint_eq]; exact connSymB_buildXpointr _

/-- C4 witness: key-based connection symmetry holds for the concrete
single-null registry built from `mSN`. -/
theorem C4_witness : ConnSymmetric (buildSingleNullr (_adjust_metadata mSN)) :=
  C4_connection_symmetry mSN _
    (by rw [show _create_regions_toroidal mSN =
      .ok (buildSingleNull (_adjust_metadata mSN)) from rfl, buildSingleNull_eq])

/-- Non-strict ordering of the adjusted y-breakpoints used by the
double-null topologies. -/
def chainY6 (a : Adjusted) : Prop :=
  -1 ≤ a.jys11 ∧ a.jys11 ≤ a.jys21 ∧ a.jys21 + 1 ≤ a.nyinner ∧
  a.nyinner ≤ a.jys12 + 1 ∧ a.jys12 ≤ a.jys22 ∧ a.jys22 + 1 ≤ a.ny

/-- Validity of the adjusted metadata for a given topology: the breakpoints
used by that topology's regions are ordered and within the grid. -/
def validOK : Topology → Adjusted → Prop
  | .core, a => 0 ≤ a.ybndry
  | .sol, _ => True
  | .limiter, a => 0 ≤ a.ixs1 ∧ a.ixs1 ≤ a.nx ∧ 0 ≤ a.ybndry
  | .singleNull, a => 0 ≤ a.ixs1 ∧ a.ixs1 ≤ a.nx ∧ -1 ≤ a.jys11 ∧
      a.jys11 ≤ a.jys22 ∧ a.jys22 + 1 ≤ a.ny
  | .xpoint, a => 0 ≤ a.ixs1 ∧ a.ixs1 ≤ a.nx ∧ -1 ≤ a.jys11 ∧
      a.jys11 + 1 ≤ a.nyinner ∧ a.nyinner ≤ a.jys22 + 1 ∧ a.jys22 + 1 ≤ a.ny
  | .connectedDoubleNull, a => a.ixs1 = a.ixs2 ∧ 0 ≤ a.ixs1 ∧ a.ixs2 ≤ a.nx ∧
      chainY6 a
  | .disconnectedDoubleNull, a => 0 ≤ a.ixs1 ∧ a.ixs1 ≤ a.ixs2 ∧
      a.ixs2 ≤ a.nx ∧ chainY6 a

instance (t : Topology) (a : Adjusted) : Decidable (validOK t a) := by
  cases t <;> (unfold validOK chainY6; infer_instance)

/-- Grid points of the full (boundary-adjusted) rectangle that no region
covers: the retained y-boundary rows alongside the periodic core region in
the `core` and `limiter` topologies.  Empty for the other five topologies. -/
def exceptional : Topology → Adjusted → Int → Int → Prop
  | .core, a, _, y => y < a.ybndry ∨ a.ny - a.ybndry ≤ y
  | .limiter, a, x, y => x < a.ixs1 ∧ (y < a.ybndry ∨ a.ny - a.ybndry ≤ y)
  | _, _, _, _ => False

/-- Consecutive pairs of a list of breakpoints. -/
def bands : List Int → List (Int × Int)
  | a :: b :: rest => (a, b) :: bands (b :: rest)
  | _ => []

/-- The product grid of rectangles determined by x-breakpoints and
y-breakpoints, listed y-band-major. -/
def prodRects (xcuts ycuts : List Int) : List Rect :=
  (bands ycuts).flatMap fun yb => (bands xcuts).map fun xb => (xb.1, xb.2, yb.1, yb.2)

lemma bands_start_le {c : Int} {rest : List Int}
    (hc : List.Chain' (· ≤ ·) (c :: rest)) {p : Int × Int}
    (hp : p ∈ bands (c :: rest)) : c ≤ p.1 := by
  induction rest generalizing c with
  | nil => simp [bands] at hp
  | cons c2 rest2 ih =>
    obtain ⟨hcc, hc2⟩ := List.chain'_cons.mp hc
    rw [show bands (c :: c2 :: rest2) = (c, c2) :: bands (c2 :: rest2) from rfl]
      at hp
    rcases List.mem_cons.mp hp with h | h
    · subst h; exact le_refl c
    · exact le_trans hcc (ih hc2 h)

lemma bands_pairwise {cuts : List Int} (hc : List.Chain' (· ≤ ·) cuts) :
    List.Pairwise (fun p q : Int × Int => p.2 ≤ q.1) (bands cuts) := by
  induction cuts with
  | nil => simp [bands]
  | cons c rest ih =>
    cases rest with
    | nil => simp [bands]
    | cons c2 rest2 =>
      obtain ⟨hcc, hc2⟩ := List.chain'_cons.mp hc
      rw [show bands (c :: c2 :: rest2) = (c, c2) :: bands (c2 :: rest2) from rfl]
      exact List.Pairwise.cons (fun q hq => bands_start_le hc2 hq) (ih hc2)

lemma chain'_head_le_last {cuts : List Int} (hc : List.Chain' (· ≤ ·) cuts)
    {a b : Int} (hh : cuts.head? = some a) (hl : cuts.getLast? = some b) :
    a ≤ b := by
  induction cuts generalizing a with
  | nil => simp at hh
  | cons c rest ih =>
    injection hh with hh
    subst hh
    cases rest with
    | nil => simp at hl; omega
    | cons c2 rest2 =>
      obtain ⟨hcc, hc2⟩ := List.chain'_cons.mp hc
      rw [List.getLast?_cons_cons] at hl
      exact le_trans hcc (ih hc2 rfl hl)

lemma bands_cover {cuts : List Int} (hc : List.Chain' (· ≤ ·) cuts)
    {a b : Int} (hh : cuts.head? = some a) (hl : cuts.getLast? = some b)
    (x : Int) :
    (∃ p ∈ bands cuts, p.1 ≤ x ∧ x < p.2) ↔ (a ≤ x ∧ x < b) := by
  induction cuts generalizing a with
  | nil => simp at hh
  | cons c rest ih =>
    injection hh with hh
    subst hh
    cases rest with
    | nil =>
      simp at hl
      subst hl
      simp [bands]
    | cons c2 rest2 =>
      obtain ⟨hcc, hc2⟩ := List.chain'_cons.mp hc
      rw [List.getLast?_cons_cons] at hl
      have hc2b : c2 ≤ b := chain'_head_le_last hc2 rfl hl
      rw [show bands (c :: c2 :: rest2) = (c, c2) :: bands (c2 :: rest2) from rfl]
      simp only [List.mem_cons, exists_eq_or_imp]
      rw [ih hc2 rfl hl]
      constructor
      · rintro (h | h) <;> omega
      · intro h
        by_cases hx : x < c2
        · left; omega
        · right; omega

lemma prodRects_disjointAt (xcuts ycuts : List Int)
    (hx : List.Chain' (· ≤ ·) xcuts) (hy : List.Chain' (· ≤ ·) ycuts)
    (x y : Int) : RectsDisjointAt (prodRects xcuts ycuts) x y := by
  unfold RectsDisjointAt prodRects
  rw [List.pairwise_flatMap]
  constructor
  · intro yb hyb
    rw [List.pairwise_map]
    refine List.Pairwise.imp ?_ (bands_pairwise hx)
    intro p q hpq
    simp only [inRect, not_and]
    intro h1 h2 h3 h4 h5
    omega
  · refine List.Pairwise.imp ?_ (bands_pairwise hy)
    intro yb1 yb2 h12 q1 hq1 q2 hq2
    simp only [List.mem_map] at hq1 hq2
    obtain ⟨xb1, -, hq1⟩ := hq1
    obtain ⟨xb2, -, hq2⟩ := hq2
    subst hq1; subst hq2
    simp only [inRect, not_and]
    intro h1 h2 h3 h4 h5
    omega

lemma prodRects_cover (xcuts ycuts : List Int)
    (hx : List.Chain' (· ≤ ·) xcuts) (hy : List.Chain' (· ≤ ·) ycuts)
    {xa xb ya yb : Int}
    (hxh : xcuts.head? = some xa) (hxl : xcuts.getLast? = some xb)
    (hyh : ycuts.head? = some ya) (hyl : ycuts.getLast? = some yb)
    (x y : Int) :
    (∃ q ∈ prodRects xcuts ycuts, inRect q x y) ↔
      ((xa ≤ x ∧ x < xb) ∧ (ya ≤ y ∧ y < yb)) := by
  unfold prodRects
  constructor
  · rintro ⟨q, hq, hin⟩
    simp only [List.mem_flatMap, List.mem_map] at hq
    obtain ⟨p, hp, xb1, hxb1, rfl⟩ := hq
    obtain ⟨h1, h2, h3, h4⟩ := hin
    constructor
    · exact (bands_cover hx hxh hxl x).mp ⟨xb1, hxb1, h1, h2⟩
    · exact (bands_cover hy hyh hyl y).mp ⟨p, hp, h3, h4⟩
  · rintro ⟨hxx, hyy⟩
    obtain ⟨xb1, hxb1, hx1, hx2⟩ := (bands_cover hx hxh hxl x).mpr hxx
    obtain ⟨p, hp, hy1, hy2⟩ := (bands_cover hy hyh hyl y).mpr hyy
    refine ⟨(xb1.1, xb1.2, p.1, p.2), ?_, hx1, hx2, hy1, hy2⟩
    simp only [List.mem_flatMap, List.mem_map]
    exact ⟨p, hp, xb1, hxb1, rfl⟩

lemma C3_DDN (a : Adjusted) (hv : validOK .disconnectedDoubleNull a) :
    (∀ x y : Int, RectsDisjointAt (RegionRects (buildDDNr a)) x y) ∧
    (∀ x y : Int, (∃ q ∈ RegionRects (buildDDNr a), inRect q x y) ↔
      (0 ≤ x ∧ x < a.nx ∧ 0 ≤ y ∧ y < a.ny ∧
        ¬ exceptional .disconnectedDoubleNull a x y)) := by
  obtain ⟨hx1, hx2, hx3, hy1, hy2, hy3, hy4, hy5, hy6⟩ := hv
  have hre : RegionRects (buildDDNr a) = prodRects [0, a.ixs1, a.ixs2, a.nx]
      [0, a.jys11 + 1, a.jys21 + 1, a.nyinner, a.jys12 + 1, a.jys22 + 1, a.ny] := rfl
  have hcx : List.Chain' (· ≤ ·) [0, a.ixs1, a.ixs2, a.nx] := by
    simp [List.chain'_cons]
    omega
  have hcy : List.Chain' (· ≤ ·)
      [0, a.jys11 + 1, a.jys21 + 1, a.nyinner, a.jys12 + 1, a.jys22 + 1, a.ny] := by
    simp [List.chain'_cons]
    omega
  rw [hre]
  refine ⟨fun x y => prodRects_disjointAt _ _ hcx hcy x y, fun x y => ?_⟩
  rw [prodRects_cover _ _ hcx hcy rfl rfl rfl rfl x y]
  simp [exceptional]
  omega

lemma C3_CDN (a : Adjusted) (hv : validOK .connectedDoubleNull a) :
    (∀ x y : Int, RectsDisjointAt (RegionRects (buildCDNr a)) x y) ∧
    (∀ x y : Int, (∃ q ∈ RegionRects (buildCDNr a), inRect q x y) ↔
      (0 ≤ x ∧ x < a.nx ∧ 0 ≤ y ∧ y < a.ny ∧
        ¬ exceptional .connectedDoubleNull a x y)) := by
  obtain ⟨heq, hx1, hx2, hy1, hy2, hy3, hy4, hy5, hy6⟩ := hv
  have hre : RegionRects (buildCDNr a) = prodRects [0, a.ixs1, a.nx]
      [0, a.jys11 + 1, a.jys21 + 1, a.nyinner, a.jys12 + 1, a.jys22 + 1, a.ny] := by
    rw [show RegionRects (buildCDNr a) = [
      (0, a.ixs1, 0, a.jys11 + 1), (a.ixs2, a.nx, 0, a.jys11 + 1),
      (0, a.ixs1, a.jys11 + 1, a.jys21 + 1), (a.ixs2, a.nx, a.jys11 + 1, a.jys21 + 1),
      (0, a.ixs1, a.jys21 + 1, a.nyinner), (a.ixs2, a.nx, a.jys21 + 1, a.nyinner),
      (0, a.ixs1, a.nyinner, a.jys12 + 1), (a.ixs2, a.nx, a.nyinner, a.jys12 + 1),
      (0, a.ixs1, a.jys12 + 1, a.jys22 + 1), (a.ixs2, a.nx, a.jys12 + 1, a.jys22 + 1),
      (0, a.ixs1, a.jys22 + 1, a.ny), (a.ixs2, a.nx, a.jys22 + 1, a.ny)] from rfl,
      ← heq]
    rfl
  have hcx : List.Chain' (· ≤ ·) [0, a.ixs1, a.nx] := by
    simp [List.chain'_cons]
    omega
  have hcy : List.Chain' (· ≤ ·)
      [0, a.jys11 + 1, a.jys21 + 1, a.nyinner, a.jys12 + 1, a.jys22 + 1, a.ny] := by
    simp [List.chain'_cons]
    omega
  rw [hre]
  refine ⟨fun x y => prodRects_disjointAt _ _ hcx hcy x y, fun x y => ?_⟩
  rw [prodRects_cover _ _ hcx hcy rfl rfl rfl rfl x y]
  simp [exceptional]
  omega

lemma C3_SingleNull (a : Adjusted) (hv : validOK .singleNull a) :
    (∀ x y : Int, RectsDisjointAt (RegionRects (buildSingleNullr a)) x y) ∧
    (∀ x y : Int, (∃ q ∈ RegionRects (buildSingleNullr a), inRect q x y) ↔
      (0 ≤ x ∧ x < a.nx ∧ 0 ≤ y ∧ y < a.ny ∧
        ¬ exceptional .singleNull a x y)) := by
  obtain ⟨hx1, hx2, hy1, hy2, hy3⟩ := hv
  have hre : RegionRects (buildSingleNullr a) = prodRects [0, a.ixs1, a.nx]
      [0, a.jys11 + 1, a.jys22 + 1, a.ny] := rfl
  have hcx : List.Chain' (· ≤ ·) [0, a.ixs1, a.nx] := by
    simp [List.chain'_cons]
    omega
  have hcy : List.Chain' (· ≤ ·) [0, a.jys11 + 1, a.jys22 + 1, a.ny] := by
    simp [List.chain'_cons]
    omega
  rw [hre]
  refine ⟨fun x y => prodRects_disjointAt _ _ hcx hcy x y, fun x y => ?_⟩
  rw [prodRects_cover _ _ hcx hcy rfl rfl rfl rfl x y]
  simp [exceptional]
  omega

lemma C3_Xpoint (a : Adjusted) (hv : validOK .xpoint a) :
    (∀ x y : Int, RectsDisjointAt (RegionRects (buildXpointr a)) x y) ∧
    (∀ x y : Int, (∃ q ∈ RegionRects (buildXpointr a), inRect q x y) ↔
      (0 ≤ x ∧ x < a.nx ∧ 0 ≤ y ∧ y < a.ny ∧
        ¬ exceptional .xpoint a x y)) := by
  obtain ⟨hx1, hx2, hy1, hy2, hy3, hy4⟩ := hv
  have hre : RegionRects (buildXpointr a) = prodRects [0, a.ixs1, a.nx]
      [0, a.jys11 + 1, a.nyinner, a.jys22 + 1, a.ny] := rfl
  have hcx : List.Chain' (· ≤ ·) [0, a.ixs1, a.nx] := by
    simp [List.chain'_cons]
    omega
  have hcy : List.Chain' (· ≤ ·) [0, a.jys11 + 1, a.nyinner, a.jys22 + 1, a.ny] := by
    simp [List.chain'_cons]
    omega
  rw [hre]
  refine ⟨fun x y => prodRects_disjointAt _ _ hcx hcy x y, fun x y => ?_⟩
  rw [prodRects_cover _ _ hcx hcy rfl rfl rfl rfl x y]
  simp [exceptional]
  omega

lemma C3_Sol (a : Adjusted) (hv : validOK .sol a) :
    (∀ x y : Int, RectsDisjointAt (RegionRects (buildSol a)) x y) ∧
    (∀ x y : Int, (∃ q ∈ RegionRects (buildSol a), inRect q x y) ↔
      (0 ≤ x ∧ x < a.nx ∧ 0 ≤ y ∧ y < a.ny ∧
        ¬ exceptional .sol a x y)) := by
  refine ⟨fun x y => ?_, fun x y => ?_⟩
  · simp [RectsDisjointAt, RegionRects, buildSol, mkRegion]
  · simp [RegionRects, buildSol, mkRegion, inRect, exceptional]

lemma C3_Core (a : Adjusted) (hv : validOK .core a) :
    (∀ x y : Int, RectsDisjointAt (RegionRects (buildCorer a)) x y) ∧
    (∀ x y : Int, (∃ q ∈ RegionRects (buildCorer a), inRect q x y) ↔
      (0 ≤ x ∧ x < a.nx ∧ 0 ≤ y ∧ y < a.ny ∧
        ¬ exceptional .core a x y)) := by
  have hb : (0 : Int) ≤ a.ybndry := hv
  refine ⟨fun x y => ?_, fun x y => ?_⟩
  · simp [RectsDisjointAt, RegionRects, buildCorer, mkRegionC]
  · simp [RegionRects, buildCorer, mkRegionC, inRect, exceptional]
    omega

lemma C3_Limiter (a : Adjusted) (hv : validOK .limiter a) :
    (∀ x y : Int, RectsDisjointAt (RegionRects (buildLimiterr a)) x y) ∧
    (∀ x y : Int, (∃ q ∈ RegionRects (buildLimiterr a), inRect q x y) ↔
      (0 ≤ x ∧ x < a.nx ∧ 0 ≤ y ∧ y < a.ny ∧
        ¬ exceptional .limiter a x y)) := by
  obtain ⟨h1, h2, h3⟩ := hv
  refine ⟨fun x y => ?_, fun x y => ?_⟩
  · simp [RectsDisjointAt, RegionRects, buildLimiterr, mkRegionC,
      List.pairwise_cons, inRect]
    omega
  · simp [RegionRects, buildLimiterr, mkRegionC, inRect, exceptional]
    omega

/-- C3 (amended): for every supported topology and metadata whose adjusted
breakpoints are ordered within the grid, the index rectangles of the regions
built by `_create_regions_toroidal` are pairwise disjoint, and their union is
exactly the full (boundary-adjusted) `nx × ny` index rectangle minus the
`exceptional` set, which is empty except for the retained y-boundary rows
alongside the periodic core region in the `core` and `limiter` topologies. -/
theorem C3_partition_property (m : Metadata) (t : Topology) (regs : Registry)
    (ht : _get_topology m = .ok t)
    (hb : _create_regions_toroidal m = .ok regs)
    (hv : validOK t (_adjust_metadata m)) :
    (∀ x y : Int, RectsDisjointAt (RegionRects regs) x y) ∧
    (∀ x y : Int, (∃ q ∈ RegionRects regs, inRect q x y) ↔
      (0 ≤ x ∧ x < (_adjust_metadata m).nx ∧ 0 ≤ y ∧ y < (_adjust_metadata m).ny ∧
        ¬ exceptional t (_adjust_metadata m) x y)) := by
  unfold _create_regions_toroidal at hb
  rw [ht] at hb
  injection hb with hb
  subst hb
  cases t
  case disconnectedDoubleNull => rw [buildDDN_eq]; exact C3_DDN _ hv
  case connectedDoubleNull => rw [buildCDN_eq]; exact C3_CDN _ hv
  case singleNull => rw [buildSingleNull_eq]; exact C3_SingleNull _ hv
  case xpoint => rw [buildXpoint_eq]; exact C3_Xpoint _ hv
  case sol => exact C3_Sol _ hv
  case core => rw [buildCore_eq]; exact C3_Core _ hv
  case limiter => rw [buildLimiter_eq]; exact C3_Limiter _ hv

/-- Concrete core-topology metadata with retained y-boundaries
(`keep_yboundaries = 1`, `MYG = 2`). -/
def mCoreY : Metadata :=
  { jyseps1_1 := 0, jyseps2_1 := 3, ny_inner := 4, jyseps1_2 := 3,
    jyseps2_2 := 7, ny := 8, ixseps1 := 4, ixseps2 := 4, nx := 4,
    MXG := 2, MYG := 2, keep_xboundaries := true, keep_yboundaries := true }

/-- C3 counterexample: for the core topology with retained y-boundaries, the
grid point `(0, 0)` lies inside the full boundary-adjusted rectangle but in
no region, so the union of the region rectangles is not the full rectangle. -/
theorem C3_counterexample :
    ∃ regs, _create_regions_toroidal mCoreY = .ok regs ∧
      (0 : Int) < (_adjust_metadata mCoreY).nx ∧
      (0 : Int) < (_adjust_metadata mCoreY).ny ∧
      ∀ q ∈ RegionRects regs, ¬ inRect q 0 0 := by
  refine ⟨buildCorer (_adjust_metadata mCoreY), ?_, by decide, by decide, by decide⟩
  rw [show _create_regions_toroidal mCoreY =
    .ok (buildCore (_adjust_metadata mCoreY)) from rfl, buildCore_eq]

/-- C3 witness: the partition property at the concrete single-null metadata
`mSN` (no exceptional points for this topology). -/
theorem C3_witness :
    (∀ x y : Int,
      RectsDisjointAt (RegionRects (buildSingleNullr (_adjust_metadata mSN))) x y) ∧
    (∀ x y : Int,
      (∃ q ∈ RegionRects (buildSingleNullr (_adjust_metadata mSN)), inRect q x y) ↔
      (0 ≤ x ∧ x < (_adjust_metadata mSN).nx ∧ 0 ≤ y ∧
        y < (_adjust_metadata mSN).ny ∧
        ¬ exceptional .singleNull (_adjust_metadata mSN) x y)) :=
  C3_partition_property mSN .singleNull _ rfl
    (by rw [show _create_regions_toroidal mSN =
      .ok (buildSingleNull (_adjust_metadata mSN)) from rfl, buildSingleNull_eq])
    (by decide)

lemma bands_strict {cuts : List Int} (hc : List.Chain' (· < ·) cuts)
    {p : Int × Int} (hp : p ∈ bands cuts) : p.1 < p.2 := by
  induction cuts with
  | nil => simp [bands] at hp
  | cons c rest ih =>
    cases rest with
    | nil => simp [bands] at hp
    | cons c2 rest2 =>
      obtain ⟨hcc, hc2⟩ := List.chain'_cons.mp hc
      rw [show bands (c :: c2 :: rest2) = (c, c2) :: bands (c2 :: rest2) from rfl]
        at hp
      rcases List.mem_cons.mp hp with h | h
      · subst h; exact hcc
      · exact ih hc2 h

lemma prodRects_bounds {xcuts ycuts : List Int} {x0 y0 : Int}
    (hx : List.Chain' (· < ·) xcuts) (hy : List.Chain' (· < ·) ycuts)
    (hxh : xcuts.head? = some x0) (hyh : ycuts.head? = some y0)
    (hx0 : 0 ≤ x0) (hy0 : 0 ≤ y0) :
    ∀ q ∈ prodRects xcuts ycuts,
      0 ≤ q.1 ∧ q.1 < q.2.1 ∧ 0 ≤ q.2.2.1 ∧ q.2.2.1 < q.2.2.2 := by
  intro q hq
  simp only [prodRects, List.mem_flatMap, List.mem_map] at hq
  obtain ⟨yb, hyb, xb, hxb, rfl⟩ := hq
  cases xcuts with
  | nil => simp at hxh
  | cons cx restx =>
    cases ycuts with
    | nil => simp at hyh
    | cons cy resty =>
      injection hxh with hxh
      injection hyh with hyh
      subst hxh; subst hyh
      have h1 : cx ≤ xb.1 := bands_start_le (hx.imp fun _ _ h => le_of_lt h) hxb
      have h2 : xb.1 < xb.2 := bands_strict hx hxb
      have h3 : cy ≤ yb.1 := bands_start_le (hy.imp fun _ _ h => le_of_lt h) hyb
      have h4 : yb.1 < yb.2 := bands_strict hy hyb
      refine ⟨?_, ?_, ?_, ?_⟩ <;> dsimp only <;> omega

/-- Strict ordering of the adjusted y-breakpoints (all six y-bands of a
double-null topology are nonempty). -/
def strictY6 (a : Adjusted) : Prop :=
  0 ≤ a.jys11 ∧ a.jys11 < a.jys21 ∧ a.jys21 + 1 < a.nyinner ∧
  a.nyinner ≤ a.jys12 ∧ a.jys12 < a.jys22 ∧ a.jys22 + 1 < a.ny

/-- Strict validity of the adjusted metadata for a topology: every band of
indices used by that topology's regions is nonempty and starts at a
non-negative index. -/
def strictOK : Topology → Adjusted → Prop
  | .core, a => 0 < a.nx ∧ 0 ≤ a.ybndry ∧ 2 * a.ybndry < a.ny
  | .sol, a => 0 < a.nx ∧ 0 < a.ny
  | .limiter, a => 0 < a.ixs1 ∧ a.ixs1 < a.nx ∧ 0 ≤ a.ybndry ∧
      2 * a.ybndry < a.ny
  | .singleNull, a => 0 < a.ixs1 ∧ a.ixs1 < a.nx ∧ 0 ≤ a.jys11 ∧
      a.jys11 < a.jys22 ∧ a.jys22 + 1 < a.ny
  | .xpoint, a => 0 < a.ixs1 ∧ a.ixs1 < a.nx ∧ 0 ≤ a.jys11 ∧
      a.jys11 + 1 < a.nyinner ∧ a.nyinner < a.jys22 + 1 ∧ a.jys22 + 1 < a.ny
  | .connectedDoubleNull, a => a.ixs1 = a.ixs2 ∧ 0 < a.ixs1 ∧ a.ixs2 < a.nx ∧
      strictY6 a
  | .disconnectedDoubleNull, a => 0 < a.ixs1 ∧ a.ixs1 < a.ixs2 ∧
      a.ixs2 < a.nx ∧ strictY6 a

instance (t : Topology) (a : Adjusted) : Decidable (strictOK t a) := by
  cases t <;> (unfold strictOK strictY6; infer_instance)

/-- C9 (amended): under strict validity of the adjusted metadata, every
region built by `_create_regions_toroidal` has non-negative index bounds with
`xinner_ind < xouter_ind` and `ylower_ind < yupper_ind`. -/
theorem C9_nondegenerate_bounds (m : Metadata) (t : Topology) (regs : Registry)
    (ht : _get_topology m = .ok t)
    (hb : _create_regions_toroidal m = .ok regs)
    (hs : strictOK t (_adjust_metadata m)) :
    ∀ q ∈ RegionRects regs,
      0 ≤ q.1 ∧ q.1 < q.2.1 ∧ 0 ≤ q.2.2.1 ∧ q.2.2.1 < q.2.2.2 := by
  unfold _create_regions_toroidal at hb
  rw [ht] at hb
  injection hb with hb
  subst hb
  set a := _adjust_metadata m with ha
  cases t
  case disconnectedDoubleNull =>
    obtain ⟨h1, h2, h3, h4, h5, h6, h7, h8, h9⟩ := hs
    rw [buildDDN_eq]
    rw [show RegionRects (buildDDNr a) = prodRects [0, a.ixs1, a.ixs2, a.nx]
      [0, a.jys11 + 1, a.jys21 + 1, a.nyinner, a.jys12 + 1, a.jys22 + 1, a.ny]
      from rfl]
    refine prodRects_bounds ?_ ?_ rfl rfl le_rfl le_rfl
    · simp [List.chain'_cons]; omega
    · simp [List.chain'_cons]; omega
  case connectedDoubleNull =>
    obtain ⟨heq, h2, h3, h4, h5, h6, h7, h8, h9⟩ := hs
    rw [buildCDN_eq]
    rw [show RegionRects (buildCDNr a) = [
      (0, a.ixs1, 0, a.jys11 + 1), (a.ixs2, a.nx, 0, a.jys11 + 1),
      (0, a.ixs1, a.jys11 + 1, a.jys21 + 1), (a.ixs2, a.nx, a.jys11 + 1, a.jys21 + 1),
      (0, a.ixs1, a.jys21 + 1, a.nyinner), (a.ixs2, a.nx, a.jys21 + 1, a.nyinner),
      (0, a.ixs1, a.nyinner, a.jys12 + 1), (a.ixs2, a.nx, a.nyinner, a.jys12 + 1),
      (0, a.ixs1, a.jys12 + 1, a.jys22 + 1), (a.ixs2, a.nx, a.jys12 + 1, a.jys22 + 1),
      (0, a.ixs1, a.jys22 + 1, a.ny), (a.ixs2, a.nx, a.jys22 + 1, a.ny)] from rfl,
      ← heq]
    rw [show ([(0, a.ixs1, 0, a.jys11 + 1), (a.ixs1, a.nx, 0, a.jys11 + 1),
      (0, a.ixs1, a.jys11 + 1, a.jys21 + 1), (a.ixs1, a.nx, a.jys11 + 1, a.jys21 + 1),
      (0, a.ixs1, a.jys21 + 1, a.nyinner), (a.ixs1, a.nx, a.jys21 + 1, a.nyinner),
      (0, a.ixs1, a.nyinner, a.jys12 + 1), (a.ixs1, a.nx, a.nyinner, a.jys12 + 1),
      (0, a.ixs1, a.jys12 + 1, a.jys22 + 1), (a.ixs1, a.nx, a.jys12 + 1, a.jys22 + 1),
      (0, a.ixs1, a.jys22 + 1, a.ny), (a.ixs1, a.nx, a.jys22 + 1, a.ny)] : List Rect)
      = prodRects [0, a.ixs1, a.nx]
        [0, a.jys11 + 1, a.jys21 + 1, a.nyinner, a.jys12 + 1, a.jys22 + 1, a.ny]
      from rfl]
    refine prodRects_bounds ?_ ?_ rfl rfl le_rfl le_rfl
    · simp [List.chain'_cons]; omega
    · simp [List.chain'_cons]; omega
  case singleNull =>
    obtain ⟨h1, h2, h3, h4, h5⟩ := hs
    rw [buildSingleNull_eq]
    rw [show RegionRects (buildSingleNullr a) = prodRects [0, a.ixs1, a.nx]
      [0, a.jys11 + 1, a.jys22 + 1, a.ny] from rfl]
    refine prodRects_bounds ?_ ?_ rfl rfl le_rfl le_rfl
    · simp [List.chain'_cons]; omega
    · simp [List.chain'_cons]; omega
  case xpoint =>
    obtain ⟨h1, h2, h3, h4, h5, h6⟩ := hs
    rw [buildXpoint_eq]
    rw [show RegionRects (buildXpointr a) = prodRects [0, a.ixs1, a.nx]
      [0, a.jys11 + 1, a.nyinner, a.jys22 + 1, a.ny] from rfl]
    refine prodRects_bounds ?_ ?_ rfl rfl le_rfl le_rfl
    · simp [List.chain'_cons]; omega
    · simp [List.chain'_cons]; omega
  case sol =>
    obtain ⟨h1, h2⟩ := hs
    intro q hq
    simp [RegionRects, buildSol, mkRegion] at hq
    subst hq
    simp
    omega
  case core =>
    obtain ⟨h1, h2, h3⟩ := hs
    intro q hq
    simp [RegionRects, buildCore_eq, buildCorer, mkRegionC] at hq
    subst hq
    simp
    omega
  case limiter =>
    obtain ⟨h1, h2, h3, h4⟩ := hs
    intro q hq
    simp [RegionRects, buildLimiter_eq, buildLimiterr, mkRegionC] at hq
    rcases hq with hq | hq <;> (subst hq; simp; omega)

/-- Single-null metadata accepted by the classifier but with the separatrix
at the inner edge (`ixseps1 = 0`). -/
def mSN0 : Metadata :=
  { jyseps1_1 := 2, jyseps2_1 := 3, ny_inner := 4, jyseps1_2 := 3,
    jyseps2_2 := 5, ny := 8, ixseps1 := 0, ixseps2 := 0, nx := 6,
    MXG := 2, MYG := 2, keep_xboundaries := true, keep_yboundaries := false }

/-- C9 counterexample: the classifier accepts `mSN0` (single-null), but the
built registry contains the degenerate region `inner_PFR` with
`xinner_ind = xouter_ind = 0`. -/
theorem C9_counterexample :
    _get_topology mSN0 = .ok .singleNull ∧
    ∃ regs, _create_regions_toroidal mSN0 = .ok regs ∧
      ∃ q ∈ RegionRects regs, ¬(q.1 < q.2.1) := by
  refine ⟨rfl, buildSingleNullr (_adjust_metadata mSN0), ?_, ?_⟩
  · rw [show _create_regions_toroidal mSN0 =
      .ok (buildSingleNull (_adjust_metadata mSN0)) from rfl, buildSingleNull_eq]
  · decide

/-- C9 witness: non-degenerate bounds of the `core` region's rectangle
`(0, 3, 3, 6)` in the registry built from the concrete single-null metadata
`mSN`. -/
theorem C9_witness :
    0 ≤ ((0, 3, 3, 6) : Rect).1 ∧ ((0, 3, 3, 6) : Rect).1 < ((0, 3, 3, 6) : Rect).2.1 ∧
    0 ≤ ((0, 3, 3, 6) : Rect).2.2.1 ∧ ((0, 3, 3, 6) : Rect).2.2.1 < ((0, 3, 3, 6) : Rect).2.2.2 :=
  C9_nondegenerate_bounds mSN .singleNull _ rfl
    (by rw [show _create_regions_toroidal mSN =
      .ok (buildSingleNull (_adjust_metadata mSN)) from rfl, buildSingleNull_eq])
    (by decide) ((0, 3, 3, 6) : Rect) (by decide)

/-- C5: for metadata without an upper X-point (`jyseps2_1 == jyseps1_2`, grid
with at least two radial points), `_get_topology` returns `core` when
`jyseps1_1 ≤ 0`, `jyseps2_2 ≥ ny - 1` and `min(ixseps1, ixseps2) ≥ nx - 1`;
`sol` when instead `min ≤ 0`; `limiter` when `0 < min < nx - 1`; and
`single-null` in every remaining case. -/
theorem C5_topology_step1 (m : Metadata) (h2 : 2 ≤ m.nx)
    (hj : m.jyseps2_1 = m.jyseps1_2) :
    ((m.jyseps1_1 ≤ 0 ∧ m.jyseps2_2 ≥ m.ny - 1 ∧
        min m.ixseps1 m.ixseps2 ≥ m.nx - 1) → _get_topology m = .ok .core) ∧
    ((m.jyseps1_1 ≤ 0 ∧ m.jyseps2_2 ≥ m.ny - 1 ∧
        min m.ixseps1 m.ixseps2 ≤ 0) → _get_topology m = .ok .sol) ∧
    ((m.jyseps1_1 ≤ 0 ∧ m.jyseps2_2 ≥ m.ny - 1 ∧ 0 < min m.ixseps1 m.ixseps2 ∧
        min m.ixseps1 m.ixseps2 < m.nx - 1) →
      _get_topology m = .ok .limiter) ∧
    (¬(m.jyseps1_1 ≤ 0 ∧ m.jyseps2_2 ≥ m.ny - 1) →
      _get_topology m = .ok .singleNull) := by
  have e : _get_topology m =
      (if m.jyseps1_1 ≤ 0 ∧ m.jyseps2_2 ≥ m.ny - 1 then
        (if min m.ixseps1 m.ixseps2 ≥ m.nx - 1 then .ok .core
         else if min m.ixseps1 m.ixseps2 ≤ 0 then .ok .sol
         else .ok .limiter)
      else .ok .singleNull) := by
    unfold _get_topology
    rw [if_pos hj]
  refine ⟨fun hc => ?_, fun hc => ?_, fun hc => ?_, fun hc => ?_⟩ <;> rw [e]
  · rw [if_pos ⟨hc.1, hc.2.1⟩, if_pos hc.2.2]
  · have hmin := hc.2.2
    rw [if_pos ⟨hc.1, hc.2.1⟩, if_neg (by omega), if_pos hmin]
  · obtain ⟨h1, h2a, h3, h4⟩ := hc
    rw [if_pos ⟨h1, h2a⟩, if_neg (by omega), if_neg (by omega)]
  · rw [if_neg hc]

/-- C5 witness: the concrete core-topology metadata `mCoreY` is classified
as `core`. -/
theorem C5_witness : _get_topology mCoreY = .ok Topology.core :=
  (C5_topology_step1 mCoreY (by decide) (by decide)).1 (by decide)

/-- Metadata with `keep_xboundaries = 0` and a positive guard width. -/
def mC6 : Metadata :=
  { jyseps1_1 := 0, jyseps2_1 := 3, ny_inner := 4, jyseps1_2 := 3,
    jyseps2_2 := 7, ny := 8, ixseps1 := 5, ixseps2 := 5, nx := 10,
    MXG := 2, MYG := 0, keep_xboundaries := false, keep_yboundaries := false }

/-- C6 counterexample: with `keep_xboundaries = 0` and `MXG = 2`, the
separatrix indices are shifted down by `MXG` but `nx` is shifted down by
`2*MXG` (both boundary regions), not by `MXG` as the claim states. -/
theorem C6_counterexample :
    mC6.keep_xboundaries = false ∧
    (_adjust_metadata mC6).ixs1 = (_clamp_metadata mC6).ixs1 - mC6.MXG ∧
    (_adjust_metadata mC6).ixs2 = (_clamp_metadata mC6).ixs2 - mC6.MXG ∧
    (_adjust_metadata mC6).nx ≠ mC6.nx - mC6.MXG := by decide

/-- C6 (amended): when `keep_xboundaries` is unset, the Region Builder shifts
the clamped `ixseps1` and `ixseps2` down by `MXG` and shifts `nx` down by
`2*MXG` (one x-boundary at each radial edge), before constructing any
region. -/
theorem C6_boundary_shift (m : Metadata) (h : m.keep_xboundaries = false) :
    (_adjust_metadata m).ixs1 = (_clamp_metadata m).ixs1 - m.MXG ∧
    (_adjust_metadata m).ixs2 = (_clamp_metadata m).ixs2 - m.MXG ∧
    (_adjust_metadata m).nx = m.nx - 2 * m.MXG := by
  simp [_adjust_metadata, h]

/-- C6 witness: the amended shift at the concrete metadata `mC6`. -/
theorem C6_witness :
    (_adjust_metadata mC6).ixs1 = (_clamp_metadata mC6).ixs1 - mC6.MXG ∧
    (_adjust_metadata mC6).ixs2 = (_clamp_metadata mC6).ixs2 - mC6.MXG ∧
    (_adjust_metadata mC6).nx = mC6.nx - 2 * mC6.MXG :=
  C6_boundary_shift mC6 rfl

/-- A region with an outer-x connection only, for evaluating
`Region.get_slices`. -/
def rC2 : Region :=
  { name := "R", xinner_ind := 2, xouter_ind := 7, ylower_ind := 0,
    yupper_ind := 5, connection_outer_x := some "S" }

/-- C2: evaluation of `Region.get_slices` at a region whose only connection
is `connection_outer_x`, with `mxg = 1`.  Line 98 of region.py does
`xi += mxg` where the docstring, the sibling `get_*_guards_slices` methods
and the tests require `xo += mxg`: the x-slice returned is
`[xinner_ind + mxg, xouter_ind)` instead of `[xinner_ind, xouter_ind + mxg)`. -/
theorem C2_get_slices_eval :
    Region.get_slices rC2 1 0 =
      { xstart := 3, xstop := 7, ystart := 0, ystop := 5 } ∧
    Region.get_slices rC2 1 0 ≠
      { xstart := 2, xstop := 8, ystart := 0, ystop := 5 } := by decide

/-- The coordinate-extent attributes set on a `Region` when a dataset is
supplied (`xcoord`, `ycoord`, `xinner`, `xouter`, `ylower`, `yupper`). -/
structure CoordVals where
  xcoord : String
  ycoord : String
  xinner : Int
  xouter : Int
  ylower : Int
  yupper : Int
deriving Repr, DecidableEq

/-- The attribute dictionary `vars(self)` of a `Region` object as stored by
`Region.__init__`: index bounds may be `None`; `nx`/`ny` are present only
when both corresponding bounds were given; the coordinate extents are
present only when a dataset was supplied. -/
structure RegionVars where
  name : String
  xinner_ind : Option Int
  xouter_ind : Option Int
  nx : Option Int
  ylower_ind : Option Int
  yupper_ind : Option Int
  ny : Option Int
  connection_inner_x : Option String
  connection_outer_x : Option String
  connection_lower_y : Option String
  connection_upper_y : Option String
  coords : Option CoordVals
deriving Repr, DecidableEq

/-- A Python value that may be compared with a `Region`: another `Region`, or
a value of any other type. -/
inductive PyValue where
  | region (r : RegionVars)
  | nonRegion (tag : String)
deriving Repr, DecidableEq

/-- The result of Python `__eq__`: a boolean, or the `NotImplemented`
sentinel. -/
inductive EqResult where
  | bool (b : Bool)
  | notImplemented
deriving Repr, DecidableEq

/-- `Region.__eq__` (region.py lines 194-197): `NotImplemented` unless the
other value is a `Region`; otherwise `vars(self) == vars(other)`, i.e.
equality of the whole attribute dictionaries. -/
def regionEq (self : RegionVars) (other : PyValue) : EqResult :=
  match other with
  | .nonRegion _ => .notImplemented
  | .region r => .bool (self = r)

/-- C10: `Region.__eq__` is structural equality of all stored attributes, and
returns `NotImplemented` for a non-`Region` comparand. -/
theorem C10_structural_equality :
    (∀ a b : RegionVars, regionEq a (.region b) = .bool true ↔
      (a.name = b.name ∧ a.xinner_ind = b.xinner_ind ∧
       a.xouter_ind = b.xouter_ind ∧ a.nx = b.nx ∧
       a.ylower_ind = b.ylower_ind ∧ a.yupper_ind = b.yupper_ind ∧
       a.ny = b.ny ∧ a.connection_inner_x = b.connection_inner_x ∧
       a.connection_outer_x = b.connection_outer_x ∧
       a.connection_lower_y = b.connection_lower_y ∧
       a.connection_upper_y = b.connection_upper_y ∧ a.coords = b.coords)) ∧
    (∀ (a : RegionVars) (t : String),
      regionEq a (.nonRegion t) = .notImplemented) := by
  constructor
  · intro a b
    cases a
    cases b
    simp [regionEq, RegionVars.mk.injEq]
  · intro a t
    rfl

/-- The list of integers `[a, a+1, ..., b-1]` (empty when `b ≤ a`). -/
def intRange (a b : Int) : List Int :=
  (List.range (b - a).toNat).map fun (i : Nat) => a + (i : Int)

/-- The values of the global array `g` on the rectangle
`[x0, x1) × [y0, y1)`, as a list of rows (row index = y). -/
def rect (g : Int → Int → Int) (x0 x1 y0 y1 : Int) : List (List Int) :=
  (intRange y0 y1).map fun y => (intRange x0 x1).map fun x => g x y

/-- Resolve one bound of a Python slice against a sequence of length `n`:
`none` means the default, negative indices count from the end, and the
result is clamped into `[0, n]`. -/
def pyBound (n : Int) (dflt : Int) : Option Int → Int
  | none => dflt
  | some i => if i < 0 then max 0 (n + i) else min i n

/-- Python slice `l[start:stop]` (step 1). -/
def pySlice (start stop : Option Int) (l : List α) : List α :=
  let a := pyBound l.length 0 start
  let b := pyBound l.length l.length stop
  (l.drop a.toNat).take (b - a).toNat

/-- A DataArray restricted to (a slab around) one region: its data values
(rows indexed by y, columns by x) and its `region` attribute. -/
structure DataArray where
  data : List (List Int)
  region : Region
deriving Repr, DecidableEq

/-- `da.isel(ycoord=slice(start, stop))`. -/
def iselY (start stop : Option Int) (da : DataArray) : DataArray :=
  { da with data := pySlice start stop da.data }

/-- `da.isel(xcoord=slice(start, stop))`. -/
def iselX (start stop : Option Int) (da : DataArray) : DataArray :=
  { da with data := da.data.map (pySlice start stop) }

/-- The x-extent of the data (length of the first row). -/
def listWidth (d : List (List Int)) : Nat := (d.headD []).length

/-- `xr.concat((d1, d2), ycoord, join='exact')`: rows of `d2` appended below
rows of `d1`; fails when the x-extents disagree; attributes (the region) are
taken from the first argument. -/
def concatY (d1 d2 : DataArray) : Except String DataArray :=
  if listWidth d1.data = listWidth d2.data then
    .ok { data := d1.data ++ d2.data, region := d1.region }
  else .error "xarray.concat: conflicting sizes on concat dimension"

/-- `xr.concat((d1, d2), xcoord, join='exact')`: columns of `d2` appended to
the right of columns of `d1`; fails when the y-extents disagree; attributes
are taken from the first argument. -/
def concatX (d1 d2 : DataArray) : Except String DataArray :=
  if d1.data.length = d2.data.length then
    .ok { data := List.zipWith (· ++ ·) d1.data d2.data, region := d1.region }
  else .error "xarray.concat: conflicting sizes on concat dimension"

/-- The global dataset as seen by the guard-cell stitchers: the region
registry and the metadata fields they read (`MYG`, `keep_yboundaries`),
whether the x/y coordinates are attached to the arrays, and the global
y-size `da_global.sizes[ycoord]`. -/
structure GlobalDS where
  regions : Registry
  MYG : Int
  keep_yboundaries : Bool
  has_xcoord : Bool
  has_ycoord : Bool
  ny : Int
deriving Repr, DecidableEq

/-- Modelled from the spec: `da_global.bout.from_region(name, with_guards=0)`
(the `from_region` accessor itself is not part of region.py): extract the
named region's interior — the global values on the region's index rectangle —
with the region attached as the `region` attribute; a missing name is a
lookup error. -/
def fromRegion0 (g : Int → Int → Int) (glob : GlobalDS) :
    Option String → Except String DataArray
  | none => .error "KeyError: region name is None"
  | some n =>
    match glob.regions.lookup n with
    | none => .error ("KeyError: " ++ n)
    | some r =>
      .ok { data := rect g r.xinner_ind r.xouter_ind r.ylower_ind r.yupper_ind,
            region := r }

/-- First y-reconciliation of `_concat_inner_guards`/`_concat_outer_guards`
(region.py lines 550-554 / 622-626): the fetched neighbour carries an actual
lower boundary the requesting region lacks, so strip `myg` rows from its
lower end. -/
def trimLowerIfBoundary (myg_da : Int) (kyb : Bool) (aR : Region)
    (di : DataArray) : DataArray :=
  if 0 < myg_da ∧ kyb = true ∧ aR.connection_lower_y ≠ none ∧
      di.region.connection_lower_y = none
  then iselY (some myg_da) none di else di

/-- Second y-reconciliation (lines 555-559 / 627-631): strip `myg` rows from
the fetched neighbour's upper end. -/
def trimUpperIfBoundary (myg_da : Int) (kyb : Bool) (aR : Region)
    (di : DataArray) : DataArray :=
  if 0 < myg_da ∧ kyb = true ∧ aR.connection_upper_y ≠ none ∧
      di.region.connection_upper_y = none
  then iselY none (some (-myg_da)) di else di

/-- Transitive lower fetch (lines 564-576 / 636-648): the requesting region
has an actual lower boundary but the fetched neighbour has a lower
connection, so fetch `myg` more rows from the neighbour's own lower
neighbour and concatenate them below; the fetched neighbour's region
attribute is restored afterwards. -/
def extendLowerFromConn (g : Int → Int → Int) (glob : GlobalDS)
    (myg_da : Int) (kyb : Bool) (mxg : Int) (aR : Region) (di : DataArray) :
    Except String DataArray :=
  if 0 < myg_da ∧ kyb = true ∧ aR.connection_lower_y = none ∧
      di.region.connection_lower_y ≠ none then
    (fromRegion0 g glob di.region.connection_lower_y).bind fun dl =>
    (concatY (iselX (some (-mxg)) none (iselY (some (-myg_da)) none dl))
        di).map fun cat => { cat with region := di.region }
  else .ok di

/-- Transitive upper fetch (lines 577-586 / 649-658): fetch `myg` more rows
from the fetched neighbour's upper neighbour and concatenate them above
(`xr.concat` keeps the first argument's region attribute). -/
def extendUpperFromConn (g : Int → Int → Int) (glob : GlobalDS)
    (myg_da : Int) (kyb : Bool) (mxg : Int) (aR : Region) (di : DataArray) :
    Except String DataArray :=
  if 0 < myg_da ∧ kyb = true ∧ aR.connection_upper_y = none ∧
      di.region.connection_upper_y ≠ none then
    (fromRegion0 g glob di.region.connection_upper_y).bind fun du =>
    concatY di (iselY none (some myg_da) (iselX (some (-mxg)) none du))
  else .ok di

/-- `_concat_inner_guards(da, da_global, mxg)` from region.py lines 534-603:
fetch the inner-x neighbour's interior, reconcile its y-extent, select its
last `mxg` columns, and concatenate them to the left of `da`, restoring
`da`'s region attribute.  The coordinate rewrite (`assign_coords`) changes
coordinate labels only, never data values, and is not represented. -/
def _concat_inner_guards (g : Int → Int → Int) (glob : GlobalDS)
    (da : DataArray) (mxg : Int) : Except String DataArray :=
  if mxg ≤ 0 then .ok da else
  (fromRegion0 g glob da.region.connection_inner_x).bind fun di =>
  (extendLowerFromConn g glob glob.MYG glob.keep_yboundaries mxg da.region
      (iselX (some (-mxg)) none
        (trimUpperIfBoundary glob.MYG glob.keep_yboundaries da.region
          (trimLowerIfBoundary glob.MYG glob.keep_yboundaries da.region
            di)))).bind fun di =>
  (extendUpperFromConn g glob glob.MYG glob.keep_yboundaries mxg da.region
      di).bind fun di =>
  (concatX di da).map fun cat => { cat with region := da.region }

/-- `_concat_outer_guards(da, da_global, mxg)` from region.py lines 606-674:
as `_concat_inner_guards` but fetching the outer-x neighbour, selecting its
first `mxg` columns, and concatenating them to the right of `da`. -/
def _concat_outer_guards (g : Int → Int → Int) (glob : GlobalDS)
    (da : DataArray) (mxg : Int) : Except String DataArray :=
  if mxg ≤ 0 then .ok da else
  (fromRegion0 g glob da.region.connection_outer_x).bind fun dout =>
  (extendLowerFromConn g glob glob.MYG glob.keep_yboundaries mxg da.region
      (iselX none (some mxg)
        (trimUpperIfBoundary glob.MYG glob.keep_yboundaries da.region
          (trimLowerIfBoundary glob.MYG glob.keep_yboundaries da.region
            dout)))).bind fun dout =>
  (extendUpperFromConn g glob glob.MYG glob.keep_yboundaries mxg da.region
      dout).bind fun dout =>
  (concatX da dout).map fun cat => { cat with region := da.region }

/-- Modelled from the spec: `from_region(name, with_guards={x: mxg, y: 0})`
(the accessor is not part of region.py): the region's interior with inner
and outer x-guard cells concatenated for the directions in which the region
has a connection. -/
def fromRegionX (g : Int → Int → Int) (glob : GlobalDS) (name : Option String)
    (mxg : Int) : Except String DataArray :=
  (fromRegion0 g glob name).bind fun da =>
  ((if 0 < mxg ∧ da.region.connection_inner_x ≠ none then
      _concat_inner_guards g glob da mxg
    else .ok da).bind fun da =>
  if 0 < mxg ∧ da.region.connection_outer_x ≠ none then
    _concat_outer_guards g glob da mxg
  else .ok da)

/-- The `MissingBoundaryData` message raised by `_concat_lower_guards` and
`_concat_upper_guards` (region.py lines 704-707 and 748-751). -/
def missingBoundaryDataMsg : String :=
  "Trying to fill a slice which is not present in the global array, so do not have coordinate values for it. Try setting keep_yboundaries=True when calling open_boutdataset."

/-- `_concat_lower_guards(da, da_global, mxg, myg)` from region.py lines
677-719: fetch the lower-y neighbour with x-guards, select its last `myg`
rows, and concatenate them below `da`.  When the y-coordinate is attached,
a guard slice that would start below global index 0 raises
`MissingBoundaryData` instead (the coordinate assignment itself changes
labels only, never data values). -/
def _concat_lower_guards (g : Int → Int → Int) (glob : GlobalDS)
    (da : DataArray) (mxg myg : Int) : Except String DataArray :=
  if myg ≤ 0 then .ok da else
  (fromRegionX g glob da.region.connection_lower_y mxg).bind fun dl =>
  if glob.has_ycoord = true ∧
      (da.region.get_lower_guards_slices mxg myg).ystart < 0 then
    .error missingBoundaryDataMsg
  else
    (concatY (iselY (some (-myg)) none dl) da).map fun cat =>
      { cat with region := da.region }

/-- `_concat_upper_guards(da, da_global, mxg, myg)` from region.py lines
722-762: fetch the upper-y neighbour with x-guards, select its first `myg`
rows, and concatenate them above `da`.  When the y-coordinate is attached,
a guard slice that would stop past the global y-size raises
`MissingBoundaryData`. -/
def _concat_upper_guards (g : Int → Int → Int) (glob : GlobalDS)
    (da : DataArray) (mxg myg : Int) : Except String DataArray :=
  if myg ≤ 0 then .ok da else
  (fromRegionX g glob da.region.connection_upper_y mxg).bind fun du =>
  if glob.has_ycoord = true ∧
      (da.region.get_upper_guards_slices mxg myg).ystop > glob.ny then
    .error missingBoundaryDataMsg
  else
    (concatY da (iselY none (some myg) du)).map fun cat =>
      { cat with region := da.region }

lemma except_bind_ok {ε α β : Type} (a : α) (f : α → Except ε β) :
    (Except.ok a : Except ε α).bind f = f a := rfl

lemma except_map_ok {ε α β : Type} (a : α) (f : α → β) :
    (Except.ok a : Except ε α).map f = .ok (f a) := rfl

lemma intRange_length (a b : Int) : (intRange a b).length = (b - a).toNat := by
  unfold intRange
  rw [List.length_map, List.length_range]

lemma intRange_getElem (a b : Int) (i : Nat) (h : i < (intRange a b).length) :
    (intRange a b)[i] = a + i := by
  unfold intRange at h ⊢
  rw [List.getElem_map, List.getElem_range]

lemma intRange_drop (a b : Int) (k : Nat) :
    (intRange a b).drop k = intRange (a + k) b := by
  apply List.ext_getElem
  · simp only [List.length_drop, intRange_length]
    omega
  · intro i h1 h2
    rw [List.getElem_drop, intRange_getElem, intRange_getElem]
    push_cast
    ring

lemma intRange_take (a b : Int) (k : Nat) (hk : (k : Int) ≤ b - a) :
    (intRange a b).take k = intRange a (a + k) := by
  apply List.ext_getElem
  · simp only [List.length_take, intRange_length]
    omega
  · intro i h1 h2
    rw [List.getElem_take, intRange_getElem, intRange_getElem]

lemma intRange_append (a b c : Int) (h1 : a ≤ b) (h2 : b ≤ c) :
    intRange a b ++ intRange b c = intRange a c := by
  apply List.ext_getElem
  · simp only [List.length_append, intRange_length]
    omega
  · intro i hi1 hi2
    by_cases hc : i < (intRange a b).length
    · rw [List.getElem_append_left hc, intRange_getElem, intRange_getElem]
    · push_neg at hc
      rw [List.getElem_append_right hc, intRange_getElem, intRange_getElem]
      rw [intRange_length] at hc ⊢
      simp only [intRange_length] at hi1
      push_cast
      omega

lemma rect_length (g : Int → Int → Int) (x0 x1 y0 y1 : Int) :
    (rect g x0 x1 y0 y1).length = (y1 - y0).toNat := by
  simp [rect, intRange_length]

lemma rect_drop_y (g : Int → Int → Int) (x0 x1 y0 y1 : Int) (k : Nat) :
    (rect g x0 x1 y0 y1).drop k = rect g x0 x1 (y0 + k) y1 := by
  unfold rect
  rw [← List.map_drop, intRange_drop]

lemma rect_take_y (g : Int → Int → Int) (x0 x1 y0 y1 : Int) (k : Nat)
    (hk : (k : Int) ≤ y1 - y0) :
    (rect g x0 x1 y0 y1).take k = rect g x0 x1 y0 (y0 + k) := by
  unfold rect
  rw [← List.map_take, intRange_take _ _ _ hk]

lemma rect_append_y (g : Int → Int → Int) (x0 x1 y0 y1 y2 : Int)
    (h1 : y0 ≤ y1) (h2 : y1 ≤ y2) :
    rect g x0 x1 y0 y1 ++ rect g x0 x1 y1 y2 = rect g x0 x1 y0 y2 := by
  unfold rect
  rw [← List.map_append, intRange_append _ _ _ h1 h2]

lemma pySlice_suffix {α : Type} (m : Int) (l : List α) (h0 : 0 < m)
    (h1 : m ≤ l.length) :
    pySlice (some (-m)) none l = l.drop (l.length - m.toNat) := by
  simp only [pySlice, pyBound]
  rw [if_pos (by omega : -m < (0 : Int))]
  have ha : max 0 ((l.length : Int) + -m) = (l.length : Int) - m := by omega
  rw [ha]
  have hb : (((l.length : Int)) - ((l.length : Int) - m)).toNat = m.toNat := by
    omega
  have hc : ((l.length : Int) - m).toNat = l.length - m.toNat := by omega
  rw [hb, hc]
  apply List.take_of_length_le
  rw [List.length_drop]
  omega

lemma pySlice_firstN {α : Type} (m : Int) (l : List α) (h0 : 0 ≤ m) :
    pySlice none (some m) l = l.take m.toNat := by
  simp only [pySlice, pyBound]
  rw [if_neg (by omega : ¬ m < (0 : Int))]
  simp only [Int.toNat_zero, List.drop_zero, Int.sub_zero]
  rcases le_or_lt m l.length with h | h
  · rw [min_eq_left h]
  · rw [min_eq_right (le_of_lt h)]
    rw [List.take_of_length_le (by omega), List.take_of_length_le (by omega)]

lemma pySlice_dropFirst {α : Type} (m : Int) (l : List α) (h0 : 0 ≤ m) :
    pySlice (some m) none l = l.drop m.toNat := by
  simp only [pySlice, pyBound]
  rw [if_neg (by omega : ¬ m < (0 : Int))]
  rcases le_or_lt m l.length with h | h
  · rw [min_eq_left h]
    apply List.take_of_length_le
    rw [List.length_drop]
    omega
  · rw [min_eq_right (le_of_lt h)]
    rw [List.drop_eq_nil_of_le (by omega), List.drop_eq_nil_of_le (by omega)]
    simp

lemma pySlice_takeNeg {α : Type} (m : Int) (l : List α) (h0 : 0 < m)
    (h1 : m ≤ l.length) :
    pySlice none (some (-m)) l = l.take (l.length - m.toNat) := by
  simp only [pySlice, pyBound]
  rw [if_pos (by omega : -m < (0 : Int))]
  have ha : max 0 ((l.length : Int) + -m) = (l.length : Int) - m := by omega
  rw [ha]
  simp only [Int.toNat_zero, List.drop_zero, Int.sub_zero]
  congr 1
  omega

lemma rect_map_pySlice_suffix (g : Int → Int → Int) (x0 x1 y0 y1 m : Int)
    (h0 : 0 < m) (h1 : m ≤ x1 - x0) :
    (rect g x0 x1 y0 y1).map (pySlice (some (-m)) none) =
      rect g (x1 - m) x1 y0 y1 := by
  unfold rect
  rw [List.map_map]
  apply List.map_congr_left
  intro y hy
  show pySlice (some (-m)) none ((intRange x0 x1).map fun x => g x y) = _
  rw [pySlice_suffix _ _ h0 (by simp only [List.length_map, intRange_length]; omega)]
  rw [List.length_map, ← List.map_drop, intRange_drop, intRange_length]
  congr 2
  omega

lemma rect_map_pySlice_firstN (g : Int → Int → Int) (x0 x1 y0 y1 m : Int)
    (h0 : 0 ≤ m) (h1 : m ≤ x1 - x0) :
    (rect g x0 x1 y0 y1).map (pySlice none (some m)) =
      rect g x0 (x0 + m) y0 y1 := by
  unfold rect
  rw [List.map_map]
  apply List.map_congr_left
  intro y hy
  show pySlice none (some m) ((intRange x0 x1).map fun x => g x y) = _
  rw [pySlice_firstN _ _ h0]
  rw [← List.map_take, intRange_take _ _ _ (by omega)]
  congr 2
  omega

lemma iselY_rect_suffix (g : Int → Int → Int) (x0 x1 y0 y1 m : Int) (r : Region)
    (h0 : 0 < m) (h1 : m ≤ y1 - y0) :
    iselY (some (-m)) none ⟨rect g x0 x1 y0 y1, r⟩ =
      ⟨rect g x0 x1 (y1 - m) y1, r⟩ := by
  unfold iselY
  rw [pySlice_suffix _ _ h0 (by rw [rect_length]; omega)]
  rw [rect_length, rect_drop_y]
  congr 2
  omega

lemma iselY_rect_firstN (g : Int → Int → Int) (x0 x1 y0 y1 m : Int) (r : Region)
    (h0 : 0 ≤ m) (h1 : m ≤ y1 - y0) :
    iselY none (some m) ⟨rect g x0 x1 y0 y1, r⟩ =
      ⟨rect g x0 x1 y0 (y0 + m), r⟩ := by
  unfold iselY
  rw [pySlice_firstN _ _ h0]
  rw [rect_take_y _ _ _ _ _ _ (by omega)]
  congr 2
  omega

lemma iselY_rect_dropFirst (g : Int → Int → Int) (x0 x1 y0 y1 m : Int)
    (r : Region) (h0 : 0 ≤ m) :
    iselY (some m) none ⟨rect g x0 x1 y0 y1, r⟩ =
      ⟨rect g x0 x1 (y0 + m) y1, r⟩ := by
  unfold iselY
  rw [pySlice_dropFirst _ _ h0]
  rw [rect_drop_y]
  congr 2
  omega

lemma iselY_rect_takeNeg (g : Int → Int → Int) (x0 x1 y0 y1 m : Int)
    (r : Region) (h0 : 0 < m) (h1 : m ≤ y1 - y0) :
    iselY none (some (-m)) ⟨rect g x0 x1 y0 y1, r⟩ =
      ⟨rect g x0 x1 y0 (y1 - m), r⟩ := by
  unfold iselY
  rw [pySlice_takeNeg _ _ h0 (by rw [rect_length]; omega)]
  rw [rect_length, rect_take_y _ _ _ _ _ _ (by omega)]
  congr 2
  omega

lemma iselX_rect_suffix (g : Int → Int → Int) (x0 x1 y0 y1 m : Int) (r : Region)
    (h0 : 0 < m) (h1 : m ≤ x1 - x0) :
    iselX (some (-m)) none ⟨rect g x0 x1 y0 y1, r⟩ =
      ⟨rect g (x1 - m) x1 y0 y1, r⟩ := by
  unfold iselX
  rw [show (⟨rect g x0 x1 y0 y1, r⟩ : DataArray).data = rect g x0 x1 y0 y1 from rfl,
    rect_map_pySlice_suffix _ _ _ _ _ _ h0 h1]

lemma iselX_rect_firstN (g : Int → Int → Int) (x0 x1 y0 y1 m : Int) (r : Region)
    (h0 : 0 ≤ m) (h1 : m ≤ x1 - x0) :
    iselX none (some m) ⟨rect g x0 x1 y0 y1, r⟩ =
      ⟨rect g x0 (x0 + m) y0 y1, r⟩ := by
  unfold iselX
  rw [show (⟨rect g x0 x1 y0 y1, r⟩ : DataArray).data = rect g x0 x1 y0 y1 from rfl,
    rect_map_pySlice_firstN _ _ _ _ _ _ h0 h1]

lemma trimLower_skip {myg : Int} {kyb : Bool} {aR : Region} {di : DataArray}
    (h : ¬(0 < myg ∧ kyb = true ∧ aR.connection_lower_y ≠ none ∧
      di.region.connection_lower_y = none)) :
    trimLowerIfBoundary myg kyb aR di = di := if_neg h

lemma trimUpper_skip {myg : Int} {kyb : Bool} {aR : Region} {di : DataArray}
    (h : ¬(0 < myg ∧ kyb = true ∧ aR.connection_upper_y ≠ none ∧
      di.region.connection_upper_y = none)) :
    trimUpperIfBoundary myg kyb aR di = di := if_neg h

lemma trimLower_apply {myg : Int} {kyb : Bool} {aR : Region} {di : DataArray}
    (h : 0 < myg ∧ kyb = true ∧ aR.connection_lower_y ≠ none ∧
      di.region.connection_lower_y = none) :
    trimLowerIfBoundary myg kyb aR di = iselY (some myg) none di := if_pos h

lemma trimUpper_apply {myg : Int} {kyb : Bool} {aR : Region} {di : DataArray}
    (h : 0 < myg ∧ kyb = true ∧ aR.connection_upper_y ≠ none ∧
      di.region.connection_upper_y = none) :
    trimUpperIfBoundary myg kyb aR di = iselY none (some (-myg)) di := if_pos h

lemma extendLower_skip {g : Int → Int → Int} {glob : GlobalDS} {myg : Int}
    {kyb : Bool} {mxg : Int} {aR : Region} {di : DataArray}
    (h : ¬(0 < myg ∧ kyb = true ∧ aR.connection_lower_y = none ∧
      di.region.connection_lower_y ≠ none)) :
    extendLowerFromConn g glob myg kyb mxg aR di = .ok di := if_neg h

lemma extendUpper_skip {g : Int → Int → Int} {glob : GlobalDS} {myg : Int}
    {kyb : Bool} {mxg : Int} {aR : Region} {di : DataArray}
    (h : ¬(0 < myg ∧ kyb = true ∧ aR.connection_upper_y = none ∧
      di.region.connection_upper_y ≠ none)) :
    extendUpperFromConn g glob myg kyb mxg aR di = .ok di := if_neg h

lemma extendLower_apply {g : Int → Int → Int} {glob : GlobalDS} {myg : Int}
    {kyb : Bool} {mxg : Int} {aR : Region} {di : DataArray}
    (h : 0 < myg ∧ kyb = true ∧ aR.connection_lower_y = none ∧
      di.region.connection_lower_y ≠ none) :
    extendLowerFromConn g glob myg kyb mxg aR di =
      (fromRegion0 g glob di.region.connection_lower_y).bind fun dl =>
      (concatY (iselX (some (-mxg)) none (iselY (some (-myg)) none dl))
          di).map fun cat => { cat with region := di.region } := if_pos h

lemma extendUpper_apply {g : Int → Int → Int} {glob : GlobalDS} {myg : Int}
    {kyb : Bool} {mxg : Int} {aR : Region} {di : DataArray}
    (h : 0 < myg ∧ kyb = true ∧ aR.connection_upper_y = none ∧
      di.region.connection_upper_y ≠ none) :
    extendUpperFromConn g glob myg kyb mxg aR di =
      (fromRegion0 g glob di.region.connection_upper_y).bind fun du =>
      concatY di (iselY none (some myg) (iselX (some (-mxg)) none du)) :=
  if_pos h

lemma fromRegion0_ok {g : Int → Int → Int} {glob : GlobalDS} {n : String}
    {B : Region} (h : glob.regions.lookup n = some B) :
    fromRegion0 g glob (some n) =
      .ok ⟨rect g B.xinner_ind B.xouter_ind B.ylower_ind B.yupper_ind, B⟩ := by
  rw [show fromRegion0 g glob (some n) =
    (match glob.regions.lookup n with
      | none => .error ("KeyError: " ++ n)
      | some r =>
        .ok ⟨rect g r.xinner_ind r.xouter_ind r.ylower_ind r.yupper_ind, r⟩)
    from rfl, h]

lemma listWidth_rect (g : Int → Int → Int) (x0 x1 y0 y1 : Int)
    (hy : y0 < y1) : listWidth (rect g x0 x1 y0 y1) = (x1 - x0).toNat := by
  have hne : rect g x0 x1 y0 y1 ≠ [] := by
    intro h
    have := rect_length g x0 x1 y0 y1
    rw [h] at this
    simp at this
    omega
  obtain ⟨c, rest, hcr⟩ := List.exists_cons_of_ne_nil hne
  have hc : c ∈ rect g x0 x1 y0 y1 := by rw [hcr]; exact List.mem_cons_self _ _
  unfold rect at hc
  obtain ⟨y, -, hcy⟩ := List.mem_map.mp hc
  rw [hcr, listWidth]
  simp only [List.headD_cons]
  rw [← hcy, List.length_map, intRange_length]

lemma concatY_rects (g : Int → Int → Int) (x0 x1 y0 y1 y2 : Int) (r1 r2 : Region)
    (h1 : y0 < y1) (h2 : y1 < y2) :
    concatY ⟨rect g x0 x1 y0 y1, r1⟩ ⟨rect g x0 x1 y1 y2, r2⟩ =
      .ok ⟨rect g x0 x1 y0 y2, r1⟩ := by
  unfold concatY
  rw [if_pos]
  · rw [rect_append_y _ _ _ _ _ _ (by omega) (by omega)]
  · rw [show (⟨rect g x0 x1 y0 y1, r1⟩ : DataArray).data = rect g x0 x1 y0 y1 from rfl,
      show (⟨rect g x0 x1 y1 y2, r2⟩ : DataArray).data = rect g x0 x1 y1 y2 from rfl,
      listWidth_rect _ _ _ _ _ h1, listWidth_rect _ _ _ _ _ h2]

/-- Computation of `_concat_inner_guards` when the fetched inner neighbour
`B` has the same y-extent and the same lower/upper connection pattern as the
requesting region `A`: the guard block is `B`'s last `mxg` columns over
`B`'s full y-range. -/
lemma concat_inner_aligned (g : Int → Int → Int) (glob : GlobalDS)
    (A B : Region) (bName : String) (mxg : Int) (da : DataArray)
    (hconn : A.connection_inner_x = some bName)
    (hlook : glob.regions.lookup bName = some B)
    (hyl : B.ylower_ind = A.ylower_ind) (hyu : B.yupper_ind = A.yupper_ind)
    (hlow : A.connection_lower_y = none ↔ B.connection_lower_y = none)
    (hup : A.connection_upper_y = none ↔ B.connection_upper_y = none)
    (hm0 : 0 < mxg) (hmB : mxg ≤ B.xouter_ind - B.xinner_ind)
    (hda : da.region = A)
    (hlen : da.data.length = (A.yupper_ind - A.ylower_ind).toNat) :
    _concat_inner_guards g glob da mxg =
      .ok { data := List.zipWith (· ++ ·)
              (rect g (B.xouter_ind - mxg) B.xouter_ind B.ylower_ind B.yupper_ind)
              da.data,
            region := A } := by
  unfold _concat_inner_guards
  rw [if_neg (by omega : ¬ mxg ≤ 0), hda, hconn,
    fromRegion0_ok (g := g) hlook, except_bind_ok]
  rw [trimLower_skip (fun hcond => hcond.2.2.1 (hlow.mpr hcond.2.2.2))]
  rw [trimUpper_skip (fun hcond => hcond.2.2.1 (hup.mpr hcond.2.2.2))]
  rw [iselX_rect_suffix _ _ _ _ _ _ _ hm0 hmB]
  rw [extendLower_skip (fun hcond => hcond.2.2.2 (hlow.mp hcond.2.2.1)),
    except_bind_ok]
  rw [extendUpper_skip (fun hcond => hcond.2.2.2 (hup.mp hcond.2.2.1)),
    except_bind_ok]
  have hcx : concatX
      ⟨rect g (B.xouter_ind - mxg) B.xouter_ind B.ylower_ind B.yupper_ind, B⟩
      da = .ok ⟨List.zipWith (· ++ ·)
        (rect g (B.xouter_ind - mxg) B.xouter_ind B.ylower_ind B.yupper_ind)
        da.data, B⟩ := by
    unfold concatX
    rw [if_pos]
    rw [show (⟨rect g (B.xouter_ind - mxg) B.xouter_ind B.ylower_ind B.yupper_ind, B⟩ :
        DataArray).data = rect g (B.xouter_ind - mxg) B.xouter_ind B.ylower_ind
        B.yupper_ind from rfl, rect_length, hlen, hyl, hyu]
  rw [hcx, except_map_ok]

lemma concatY_width_eq (d1 d2 : DataArray)
    (h : listWidth d1.data = listWidth d2.data) :
    concatY d1 d2 = .ok ⟨d1.data ++ d2.data, d1.region⟩ := by
  unfold concatY
  rw [if_pos h]

lemma concatX_len_eq (d1 d2 : DataArray)
    (h : d1.data.length = d2.data.length) :
    concatX d1 d2 = .ok ⟨List.zipWith (· ++ ·) d1.data d2.data, d1.region⟩ := by
  unfold concatX
  rw [if_pos h]

lemma listWidth_append_ne {d1 d2 : List (List Int)} (h : d1 ≠ []) :
    listWidth (d1 ++ d2) = listWidth d1 := by
  cases d1 with
  | nil => exact absurd rfl h
  | cons c rest => simp [listWidth]

lemma rect_ne_nil (g : Int → Int → Int) (x0 x1 y0 y1 : Int) (hy : y0 < y1) :
    rect g x0 x1 y0 y1 ≠ [] := by
  apply List.ne_nil_of_length_pos
  rw [rect_length]
  omega

/-- Computation of `_concat_inner_guards` in the periodic (limiter-style)
configuration: the requesting region `A` has true y-boundaries, the fetched
inner neighbour `B` is self-connected in y, so `myg` extra rows are fetched
transitively from `B` itself at each end (wrapping around), giving a guard
block made of three stacked slabs of `B`'s last `mxg` columns. -/
lemma concat_inner_periodic (g : Int → Int → Int) (glob : GlobalDS)
    (A B : Region) (bName : String) (mxg : Int) (da : DataArray)
    (hconn : A.connection_inner_x = some bName)
    (hlook : glob.regions.lookup bName = some B)
    (hBlow : B.connection_lower_y = some bName)
    (hBup : B.connection_upper_y = some bName)
    (hAlow : A.connection_lower_y = none)
    (hAup : A.connection_upper_y = none)
    (hkyb : glob.keep_yboundaries = true)
    (hmyg : 0 < glob.MYG)
    (hmygB : glob.MYG ≤ B.yupper_ind - B.ylower_ind)
    (hm0 : 0 < mxg) (hmB : mxg ≤ B.xouter_ind - B.xinner_ind)
    (hda : da.region = A)
    (hyl : A.ylower_ind = B.ylower_ind - glob.MYG)
    (hyu : A.yupper_ind = B.yupper_ind + glob.MYG)
    (hlen : da.data.length = (A.yupper_ind - A.ylower_ind).toNat) :
    _concat_inner_guards g glob da mxg =
      .ok { data := List.zipWith (· ++ ·)
              ((rect g (B.xouter_ind - mxg) B.xouter_ind
                  (B.yupper_ind - glob.MYG) B.yupper_ind ++
                rect g (B.xouter_ind - mxg) B.xouter_ind
                  B.ylower_ind B.yupper_ind) ++
                rect g (B.xouter_ind - mxg) B.xouter_ind
                  B.ylower_ind (B.ylower_ind + glob.MYG))
              da.data,
            region := A } := by
  unfold _concat_inner_guards
  rw [if_neg (by omega : ¬ mxg ≤ 0), hda, hconn,
    fromRegion0_ok (g := g) hlook, except_bind_ok]
  rw [trimLower_skip (fun hcond => hcond.2.2.1 hAlow)]
  rw [trimUpper_skip (fun hcond => hcond.2.2.1 hAup)]
  rw [iselX_rect_suffix _ _ _ _ _ _ _ hm0 hmB]
  rw [extendLower_apply ⟨hmyg, hkyb, hAlow,
    show B.connection_lower_y ≠ none by rw [hBlow]; exact Option.some_ne_none _⟩]
  rw [show (⟨rect g (B.xouter_ind - mxg) B.xouter_ind B.ylower_ind B.yupper_ind, B⟩ :
      DataArray).region.connection_lower_y = some bName from hBlow,
    fromRegion0_ok (g := g) hlook, except_bind_ok]
  rw [iselY_rect_suffix _ _ _ _ _ _ _ hmyg hmygB]
  rw [iselX_rect_suffix _ _ _ _ _ _ _ hm0 hmB]
  rw [concatY_width_eq _ _ (by
    show listWidth (rect g (B.xouter_ind - mxg) B.xouter_ind
        (B.yupper_ind - glob.MYG) B.yupper_ind) =
      listWidth (rect g (B.xouter_ind - mxg) B.xouter_ind B.ylower_ind B.yupper_ind)
    rw [listWidth_rect _ _ _ _ _ (by omega), listWidth_rect _ _ _ _ _ (by omega)])]
  rw [except_map_ok, except_bind_ok]
  dsimp only
  rw [extendUpper_apply ⟨hmyg, hkyb, hAup,
    show B.connection_upper_y ≠ none by rw [hBup]; exact Option.some_ne_none _⟩]
  rw [show ((⟨rect g (B.xouter_ind - mxg) B.xouter_ind (B.yupper_ind - glob.MYG)
        B.yupper_ind ++ rect g (B.xouter_ind - mxg) B.xouter_ind B.ylower_ind
        B.yupper_ind, B⟩ : DataArray)).region.connection_upper_y = some bName
      from hBup,
    fromRegion0_ok (g := g) hlook, except_bind_ok]
  try dsimp only
  rw [iselX_rect_suffix _ _ _ _ _ _ _ hm0 hmB]
  rw [iselY_rect_firstN _ _ _ _ _ _ _ (by omega) hmygB]
  rw [concatY_width_eq _ _ (by
    show listWidth (rect g (B.xouter_ind - mxg) B.xouter_ind
        (B.yupper_ind - glob.MYG) B.yupper_ind ++
      rect g (B.xouter_ind - mxg) B.xouter_ind B.ylower_ind B.yupper_ind) =
      listWidth (rect g (B.xouter_ind - mxg) B.xouter_ind B.ylower_ind
        (B.ylower_ind + glob.MYG))
    rw [listWidth_append_ne (rect_ne_nil _ _ _ _ _ (by omega)),
      listWidth_rect _ _ _ _ _ (by omega), listWidth_rect _ _ _ _ _ (by omega)])]
  rw [except_bind_ok]
  dsimp only
  rw [concatX_len_eq _ _ (by
    show ((rect g (B.xouter_ind - mxg) B.xouter_ind (B.yupper_ind - glob.MYG)
        B.yupper_ind ++ rect g (B.xouter_ind - mxg) B.xouter_ind B.ylower_ind
        B.yupper_ind) ++ rect g (B.xouter_ind - mxg) B.xouter_ind B.ylower_ind
        (B.ylower_ind + glob.MYG)).length = da.data.length
    rw [hlen, List.length_append, List.length_append, rect_length, rect_length,
      rect_length]
    omega)]
  rw [except_map_ok]

/-- Computation of `_concat_outer_guards` when the fetched outer neighbour
`B` has the same y-extent and connection pattern as the requesting region
`A`: the guard block is `B`'s first `mxg` columns over `B`'s full y-range,
appended to the right of `da`. -/
lemma concat_outer_aligned (g : Int → Int → Int) (glob : GlobalDS)
    (A B : Region) (bName : String) (mxg : Int) (da : DataArray)
    (hconn : A.connection_outer_x = some bName)
    (hlook : glob.regions.lookup bName = some B)
    (hyl : B.ylower_ind = A.ylower_ind) (hyu : B.yupper_ind = A.yupper_ind)
    (hlow : A.connection_lower_y = none ↔ B.connection_lower_y = none)
    (hup : A.connection_upper_y = none ↔ B.connection_upper_y = none)
    (hm0 : 0 < mxg) (hmB : mxg ≤ B.xouter_ind - B.xinner_ind)
    (hda : da.region = A)
    (hlen : da.data.length = (A.yupper_ind - A.ylower_ind).toNat) :
    _concat_outer_guards g glob da mxg =
      .ok { data := List.zipWith (· ++ ·) da.data
              (rect g B.xinner_ind (B.xinner_ind + mxg) B.ylower_ind B.yupper_ind),
            region := A } := by
  unfold _concat_outer_guards
  rw [if_neg (by omega : ¬ mxg ≤ 0), hda, hconn,
    fromRegion0_ok (g := g) hlook, except_bind_ok]
  rw [trimLower_skip (fun hcond => hcond.2.2.1 (hlow.mpr hcond.2.2.2))]
  rw [trimUpper_skip (fun hcond => hcond.2.2.1 (hup.mpr hcond.2.2.2))]
  rw [iselX_rect_firstN _ _ _ _ _ _ _ (by omega) hmB]
  rw [extendLower_skip (fun hcond => hcond.2.2.2 (hlow.mp hcond.2.2.1)),
    except_bind_ok]
  rw [extendUpper_skip (fun hcond => hcond.2.2.2 (hup.mp hcond.2.2.1)),
    except_bind_ok]
  rw [concatX_len_eq _ _ (by
    show da.data.length =
      (rect g B.xinner_ind (B.xinner_ind + mxg) B.ylower_ind B.yupper_ind).length
    rw [hlen, rect_length, hyl, hyu])]
  rw [except_map_ok]

/-- Computation of `_concat_outer_guards` in the limiter-style trim
configuration: the requesting region `A` is periodic in y while the fetched
outer neighbour `B` carries actual y-boundary rows at both ends, so `myg`
rows are stripped from each end of `B` before selecting its first `mxg`
columns. -/
lemma concat_outer_trim (g : Int → Int → Int) (glob : GlobalDS)
    (A B : Region) (bName : String) (mxg : Int) (da : DataArray)
    (hconn : A.connection_outer_x = some bName)
    (hlook : glob.regions.lookup bName = some B)
    (hBlow : B.connection_lower_y = none)
    (hBup : B.connection_upper_y = none)
    (hAlow : A.connection_lower_y ≠ none)
    (hAup : A.connection_upper_y ≠ none)
    (hkyb : glob.keep_yboundaries = true)
    (hmyg : 0 < glob.MYG)
    (h2myg : 2 * glob.MYG ≤ B.yupper_ind - B.ylower_ind)
    (hm0 : 0 < mxg) (hmB : mxg ≤ B.xouter_ind - B.xinner_ind)
    (hda : da.region = A)
    (hyl : A.ylower_ind = B.ylower_ind + glob.MYG)
    (hyu : A.yupper_ind = B.yupper_ind - glob.MYG)
    (hlen : da.data.length = (A.yupper_ind - A.ylower_ind).toNat) :
    _concat_outer_guards g glob da mxg =
      .ok { data := List.zipWith (· ++ ·) da.data
              (rect g B.xinner_ind (B.xinner_ind + mxg)
                (B.ylower_ind + glob.MYG) (B.yupper_ind - glob.MYG)),
            region := A } := by
  unfold _concat_outer_guards
  rw [if_neg (by omega : ¬ mxg ≤ 0), hda, hconn,
    fromRegion0_ok (g := g) hlook, except_bind_ok]
  rw [trimLower_apply ⟨hmyg, hkyb, hAlow,
    show B.connection_lower_y = none from hBlow⟩]
  rw [iselY_rect_dropFirst _ _ _ _ _ _ _ (by omega)]
  rw [trimUpper_apply ⟨hmyg, hkyb, hAup,
    show B.connection_upper_y = none from hBup⟩]
  rw [iselY_rect_takeNeg _ _ _ _ _ _ _ hmyg (by omega)]
  rw [iselX_rect_firstN _ _ _ _ _ _ _ (by omega) hmB]
  rw [extendLower_skip (fun hcond => hAlow hcond.2.2.1), except_bind_ok]
  rw [extendUpper_skip (fun hcond => hAup hcond.2.2.1), except_bind_ok]
  rw [concatX_len_eq _ _ (by
    show da.data.length = (rect g B.xinner_ind (B.xinner_ind + mxg)
      (B.ylower_ind + glob.MYG) (B.yupper_ind - glob.MYG)).length
    rw [hlen, rect_length]
    omega)]
  rw [except_map_ok]

lemma listWidth_zipWith_append (d1 d2 : List (List Int)) (h1 : d1 ≠ [])
    (h2 : d2 ≠ []) :
    listWidth (List.zipWith (· ++ ·) d1 d2) = listWidth d1 + listWidth d2 := by
  cases d1 with
  | nil => exact absurd rfl h1
  | cons a t1 =>
    cases d2 with
    | nil => exact absurd rfl h2
    | cons b t2 => simp [listWidth, List.zipWith]

/-- C1: guard continuity of the x-direction stitchers.  For a region `A`
whose array `da` is `A`'s interior and whose x-neighbour (under the
registry) is `B`:
(i) a guard width `≤ 0` is a no-op;
(ii) across an inner seam with matching y-extents and matching y-connection
patterns, the stitched array is exactly `B`'s last `mxg` interior columns
(equal, by the seam equation, to the global cells on `[A.xinner-mxg,
A.xinner)`) prepended to `da`, value for value;
(iii) in the periodic configuration (`A` has true y-boundaries, `B` is
self-connected in y) the guard block consists of three slabs, all drawn from
`B`'s last `mxg` interior columns, the extra rows coming from the transitive
fetch from `B`'s own y-connection (`B` itself): `B`'s rows wrapped around;
(iv) across an outer seam with matching y-extents, the stitched array is
`da` with `B`'s first `mxg` interior columns appended;
(v) in the outer trim configuration (`A` periodic, `B` carrying y-boundary
rows), the appended block is `B`'s first `mxg` columns restricted to the
rows matching `A`. -/
theorem C1_guard_continuity (g : Int → Int → Int) (glob : GlobalDS)
    (A B : Region) (bName : String) (mxg : Int) (da : DataArray)
    (hlook : glob.regions.lookup bName = some B)
    (hda : da.region = A)
    (hdata : da.data = rect g A.xinner_ind A.xouter_ind A.ylower_ind A.yupper_ind) :
    (mxg ≤ 0 → _concat_inner_guards g glob da mxg = .ok da ∧
      _concat_outer_guards g glob da mxg = .ok da) ∧
    (A.connection_inner_x = some bName → B.xouter_ind = A.xinner_ind →
      B.ylower_ind = A.ylower_ind → B.yupper_ind = A.yupper_ind →
      (A.connection_lower_y = none ↔ B.connection_lower_y = none) →
      (A.connection_upper_y = none ↔ B.connection_upper_y = none) →
      0 < mxg → mxg ≤ B.xouter_ind - B.xinner_ind →
      _concat_inner_guards g glob da mxg =
        .ok { data := List.zipWith (· ++ ·)
                (rect g (B.xouter_ind - mxg) B.xouter_ind B.ylower_ind B.yupper_ind)
                da.data,
              region := A } ∧
      rect g (B.xouter_ind - mxg) B.xouter_ind B.ylower_ind B.yupper_ind =
        rect g (A.xinner_ind - mxg) A.xinner_ind A.ylower_ind A.yupper_ind) ∧
    (A.connection_inner_x = some bName → B.xouter_ind = A.xinner_ind →
      B.connection_lower_y = some bName → B.connection_upper_y = some bName →
      A.connection_lower_y = none → A.connection_upper_y = none →
      glob.keep_yboundaries = true → 0 < glob.MYG →
      glob.MYG ≤ B.yupper_ind - B.ylower_ind →
      A.ylower_ind = B.ylower_ind - glob.MYG →
      A.yupper_ind = B.yupper_ind + glob.MYG →
      0 < mxg → mxg ≤ B.xouter_ind - B.xinner_ind →
      _concat_inner_guards g glob da mxg =
        .ok { data := List.zipWith (· ++ ·)
                ((rect g (B.xouter_ind - mxg) B.xouter_ind
                    (B.yupper_ind - glob.MYG) B.yupper_ind ++
                  rect g (B.xouter_ind - mxg) B.xouter_ind
                    B.ylower_ind B.yupper_ind) ++
                  rect g (B.xouter_ind - mxg) B.xouter_ind
                    B.ylower_ind (B.ylower_ind + glob.MYG))
                da.data,
              region := A } ∧
      B.xouter_ind - mxg = A.xinner_ind - mxg) ∧
    (A.connection_outer_x = some bName → B.xinner_ind = A.xouter_ind →
      B.ylower_ind = A.ylower_ind → B.yupper_ind = A.yupper_ind →
      (A.connection_lower_y = none ↔ B.connection_lower_y = none) →
      (A.connection_upper_y = none ↔ B.connection_upper_y = none) →
      0 < mxg → mxg ≤ B.xouter_ind - B.xinner_ind →
      _concat_outer_guards g glob da mxg =
        .ok { data := List.zipWith (· ++ ·) da.data
                (rect g B.xinner_ind (B.xinner_ind + mxg) B.ylower_ind B.yupper_ind),
              region := A } ∧
      rect g B.xinner_ind (B.xinner_ind + mxg) B.ylower_ind B.yupper_ind =
        rect g A.xouter_ind (A.xouter_ind + mxg) A.ylower_ind A.yupper_ind) ∧
    (A.connection_outer_x = some bName → B.xinner_ind = A.xouter_ind →
      B.connection_lower_y = none → B.connection_upper_y = none →
      A.connection_lower_y ≠ none → A.connection_upper_y ≠ none →
      glob.keep_yboundaries = true → 0 < glob.MYG →
      2 * glob.MYG ≤ B.yupper_ind - B.ylower_ind →
      A.ylower_ind = B.ylower_ind + glob.MYG →
      A.yupper_ind = B.yupper_ind - glob.MYG →
      0 < mxg → mxg ≤ B.xouter_ind - B.xinner_ind →
      _concat_outer_guards g glob da mxg =
        .ok { data := List.zipWith (· ++ ·) da.data
                (rect g B.xinner_ind (B.xinner_ind + mxg)
                  (B.ylower_ind + glob.MYG) (B.yupper_ind - glob.MYG)),
              region := A } ∧
      rect g B.xinner_ind (B.xinner_ind + mxg)
          (B.ylower_ind + glob.MYG) (B.yupper_ind - glob.MYG) =
        rect g A.xouter_ind (A.xouter_ind + mxg) A.ylower_ind A.yupper_ind) := by
  have hlen : da.data.length = (A.yupper_ind - A.ylower_ind).toNat := by
    rw [hdata, rect_length]
  refine ⟨?_, ?_, ?_, ?_, ?_⟩
  · intro h0
    constructor
    · unfold _concat_inner_guards
      rw [if_pos h0]
    · unfold _concat_outer_guards
      rw [if_pos h0]
  · intro hconn hseam hyl hyu hlow hup hm0 hmB
    refine ⟨concat_inner_aligned g glob A B bName mxg da hconn hlook hyl hyu
      hlow hup hm0 hmB hda hlen, ?_⟩
    rw [hseam, hyl, hyu]
  · intro hconn hseam hBlow hBup hAlow hAup hkyb hmyg hmygB hyl hyu hm0 hmB
    refine ⟨concat_inner_periodic g glob A B bName mxg da hconn hlook hBlow
      hBup hAlow hAup hkyb hmyg hmygB hm0 hmB hda hyl hyu hlen, ?_⟩
    rw [hseam]
  · intro hconn hseam hyl hyu hlow hup hm0 hmB
    refine ⟨concat_outer_aligned g glob A B bName mxg da hconn hlook hyl hyu
      hlow hup hm0 hmB hda hlen, ?_⟩
    rw [hseam, hyl, hyu]
  · intro hconn hseam hBlow hBup hAlow hAup hkyb hmyg h2myg hyl hyu hm0 hmB
    refine ⟨concat_outer_trim g glob A B bName mxg da hconn hlook hBlow hBup
      hAlow hAup hkyb hmyg h2myg hm0 hmB hda hyl hyu hlen, ?_⟩
    rw [hseam, hyl, hyu]

/-- A concrete global value function (value `x + 10*y` at grid point
`(x, y)`). -/
def gW : Int → Int → Int := fun x y => x + 10 * y

/-- Concrete limiter-style registry: periodic `core` region `[0,3) × [2,6)`
and `SOL` region `[3,5) × [0,8)` with y-boundary rows. -/
def coreLim : Region :=
  mkRegionC "core" 0 3 2 6 none (some "SOL") (some "core") (some "core")

def solLim : Region :=
  mkRegionC "SOL" 3 5 0 8 (some "core") none none none

def globLim : GlobalDS :=
  { regions := [("core", coreLim), ("SOL", solLim)], MYG := 2,
    keep_yboundaries := true, has_xcoord := true, has_ycoord := true, ny := 8 }

def daSOL : DataArray := { data := rect gW 3 5 0 8, region := solLim }

/-- C1 witness: the periodic case (iii) at the concrete limiter setup — the
inner guard column stitched onto `SOL` consists of the last column of
`core`, with the two extra rows at each end wrapped around through `core`'s
self-connection. -/
theorem C1_witness :
    _concat_inner_guards gW globLim daSOL 1 =
      .ok { data := List.zipWith (· ++ ·)
              ((rect gW 2 3 4 6 ++ rect gW 2 3 2 6) ++ rect gW 2 3 2 4)
              daSOL.data,
            region := solLim } :=
  ((C1_guard_continuity gW globLim solLim coreLim "core" 1 daSOL rfl rfl
    rfl).2.2.1 rfl rfl rfl rfl rfl rfl rfl (by decide) (by decide) (by decide)
    (by decide) (by decide) (by decide)).1

/-- Concrete pair of x-adjacent regions `B = [0,2) × [0,1)` and
`A = [2,4) × [0,1)` with no y-connections. -/
def regA : Region := mkRegionC "A" 2 4 0 1 (some "B") none none none

def regB : Region := mkRegionC "B" 0 2 0 1 none (some "A") none none

def globAB : GlobalDS :=
  { regions := [("A", regA), ("B", regB)], MYG := 0, keep_yboundaries := false,
    has_xcoord := true, has_ycoord := true, ny := 1 }

def daA : DataArray := { data := rect gW 2 4 0 1, region := regA }

/-- C7 counterexample: applying `_concat_inner_guards` a second time, to the
array produced by the first application, prepends the guard block again — the
second result is not identical to the first. -/
theorem C7_counterexample :
    ∃ d1 d2, _concat_inner_guards gW globAB daA 1 = .ok d1 ∧
      _concat_inner_guards gW globAB d1 1 = .ok d2 ∧ d2 ≠ d1 := by
  refine ⟨_, _, rfl, rfl, by decide⟩

/-- C7 (amended): the stitchers are pure functions of their inputs (so two
applications to the same input give identical results), but they are not
idempotent: applied to its own output, the inner-x stitcher prepends the
same `mxg`-wide guard block a second time, so the second result differs from
the first. -/
theorem C7_not_idempotent (g : Int → Int → Int) (glob : GlobalDS)
    (A B : Region) (bName : String) (mxg : Int) (da : DataArray)
    (hconn : A.connection_inner_x = some bName)
    (hlook : glob.regions.lookup bName = some B)
    (hyl : B.ylower_ind = A.ylower_ind) (hyu : B.yupper_ind = A.yupper_ind)
    (hlow : A.connection_lower_y = none ↔ B.connection_lower_y = none)
    (hup : A.connection_upper_y = none ↔ B.connection_upper_y = none)
    (hm0 : 0 < mxg) (hmB : mxg ≤ B.xouter_ind - B.xinner_ind)
    (hda : da.region = A)
    (hdata : da.data = rect g A.xinner_ind A.xouter_ind A.ylower_ind A.yupper_ind)
    (hh : A.ylower_ind < A.yupper_ind) :
    ∃ da1 da2,
      _concat_inner_guards g glob da mxg = .ok da1 ∧
      _concat_inner_guards g glob da1 mxg = .ok da2 ∧
      da1.data = List.zipWith (· ++ ·)
        (rect g (B.xouter_ind - mxg) B.xouter_ind B.ylower_ind B.yupper_ind)
        da.data ∧
      da2.data = List.zipWith (· ++ ·)
        (rect g (B.xouter_ind - mxg) B.xouter_ind B.ylower_ind B.yupper_ind)
        da1.data ∧
      da2 ≠ da1 := by
  have hlen : da.data.length = (A.yupper_ind - A.ylower_ind).toNat := by
    rw [hdata, rect_length]
  have hblkw : listWidth (rect g (B.xouter_ind - mxg) B.xouter_ind B.ylower_ind
      B.yupper_ind) = (B.xouter_ind - (B.xouter_ind - mxg)).toNat :=
    listWidth_rect _ _ _ _ _ (by omega)
  have hblkne : rect g (B.xouter_ind - mxg) B.xouter_ind B.ylower_ind
      B.yupper_ind ≠ [] := rect_ne_nil _ _ _ _ _ (by omega)
  have hdane : da.data ≠ [] := by
    apply List.ne_nil_of_length_pos
    rw [hlen]
    omega
  have h1 := concat_inner_aligned g glob A B bName mxg da hconn hlook hyl hyu
    hlow hup hm0 hmB hda hlen
  have hlen1 : (List.zipWith (· ++ ·)
      (rect g (B.xouter_ind - mxg) B.xouter_ind B.ylower_ind B.yupper_ind)
      da.data).length = (A.yupper_ind - A.ylower_ind).toNat := by
    rw [List.length_zipWith, rect_length, hlen, hyl, hyu]
    omega
  have h2 := concat_inner_aligned g glob A B bName mxg
    ⟨List.zipWith (· ++ ·)
      (rect g (B.xouter_ind - mxg) B.xouter_ind B.ylower_ind B.yupper_ind)
      da.data, A⟩ hconn hlook hyl hyu hlow hup hm0 hmB rfl hlen1
  refine ⟨_, _, h1, h2, rfl, rfl, ?_⟩
  intro heq
  have hw := congrArg (fun d : DataArray => listWidth d.data) heq
  have hzne : List.zipWith (· ++ ·)
      (rect g (B.xouter_ind - mxg) B.xouter_ind B.ylower_ind B.yupper_ind)
      da.data ≠ [] := by
    apply List.ne_nil_of_length_pos
    rw [hlen1]
    omega
  dsimp only at hw
  rw [listWidth_zipWith_append _ _ hblkne hzne,
    listWidth_zipWith_append _ _ hblkne hdane, hblkw] at hw
  omega

/-- C7 witness: the second application at the concrete two-region setup. -/
theorem C7_witness :
    ∃ da1 da2,
      _concat_inner_guards gW globAB daA 1 = .ok da1 ∧
      _concat_inner_guards gW globAB da1 1 = .ok da2 ∧
      da1.data = List.zipWith (· ++ ·) (rect gW 1 2 0 1) daA.data ∧
      da2.data = List.zipWith (· ++ ·) (rect gW 1 2 0 1) da1.data ∧
      da2 ≠ da1 :=
  C7_not_idempotent gW globAB regA regB "B" 1 daA rfl rfl rfl rfl
    (by decide) (by decide) (by decide) (by decide) rfl rfl (by decide)

/-- C8 (amended): when the y-coordinate is attached to the array and the
guard width is positive, a lower-y guard request whose slice would start
below global index 0 — or an upper-y request whose slice would stop past the
global y-size — makes the stitcher raise `MissingBoundaryData` (instructing
the caller to retain boundaries at dataset-open time) instead of returning
an array, provided the neighbour fetch itself succeeds. -/
theorem C8_missing_boundary (g : Int → Int → Int) (glob : GlobalDS)
    (da : DataArray) (mxg myg : Int)
    (hyc : glob.has_ycoord = true) (hm : 0 < myg) :
    ((da.region.get_lower_guards_slices mxg myg).ystart < 0 →
      (∃ v, fromRegionX g glob da.region.connection_lower_y mxg = .ok v) →
      _concat_lower_guards g glob da mxg myg = .error missingBoundaryDataMsg) ∧
    ((da.region.get_upper_guards_slices mxg myg).ystop > glob.ny →
      (∃ v, fromRegionX g glob da.region.connection_upper_y mxg = .ok v) →
      _concat_upper_guards g glob da mxg myg = .error missingBoundaryDataMsg) := by
  constructor
  · rintro hstart ⟨v, hv⟩
    unfold _concat_lower_guards
    rw [if_neg (by omega : ¬ myg ≤ 0), hv]
    simp only [except_bind_ok]
    rw [if_pos ⟨hyc, hstart⟩]
  · rintro hstop ⟨v, hv⟩
    unfold _concat_upper_guards
    rw [if_neg (by omega : ¬ myg ≤ 0), hv]
    simp only [except_bind_ok]
    rw [if_pos ⟨hyc, hstop⟩]

/-- Concrete core-only registry whose single region is self-connected in y,
with y-boundary rows not retained. -/
def regCoreS : Region :=
  mkRegionC "core" 0 4 0 3 none none (some "core") (some "core")

def globNoCoord : GlobalDS :=
  { regions := [("core", regCoreS)], MYG := 2, keep_yboundaries := false,
    has_xcoord := false, has_ycoord := false, ny := 3 }

def globCoord : GlobalDS :=
  { globNoCoord with has_xcoord := true, has_ycoord := true }

def daCoreS : DataArray := { data := rect gW 0 4 0 3, region := regCoreS }

/-- C8 counterexample: with the y-coordinate not attached to the array, a
lower-y guard request whose required cells lie below global index 0 does NOT
raise — the stitcher returns an array (with the rows wrapped through the
self-connection). -/
theorem C8_counterexample :
    (daCoreS.region.get_lower_guards_slices 0 2).ystart < 0 ∧
    ∃ d, _concat_lower_guards gW globNoCoord daCoreS 0 2 = .ok d :=
  ⟨by decide, ⟨_, rfl⟩⟩

/-- C8 witness: with the y-coordinate attached, both the lower and the upper
out-of-range guard requests raise `MissingBoundaryData` at the concrete
core-only setup. -/
theorem C8_witness :
    _concat_lower_guards gW globCoord daCoreS 0 2 =
      .error missingBoundaryDataMsg ∧
    _concat_upper_guards gW globCoord daCoreS 0 2 =
      .error missingBoundaryDataMsg :=
  ⟨(C8_missing_boundary gW globCoord daCoreS 0 2 rfl (by decide)).1
      (by decide) ⟨_, rfl⟩,
   (C8_missing_boundary gW globCoord daCoreS 0 2 rfl (by decide)).2
      (by decide) ⟨_, rfl⟩⟩
